import Mathlib

/-!
A shallow embedding of `DDSTextureLoaderVk` (DDSTextureLoaderVk.cpp /
DDSTextureLoaderVk.h) in Lean 4, together with theorems about the embedded
functions.

Modeling conventions:
* The build configuration embedded here is the ordinary desktop one:
  `VK_VERSION_1_1` is enabled (so the `#elif defined(VK_KHR_sampler_ycbcr_conversion)`
  fallback blocks are inactive), the extension macros `VK_IMG_format_pvrtc`,
  `VK_EXT_texture_compression_astc_hdr` and `VK_EXT_4444_formats` are defined,
  and the platform is 64-bit (so the 32-bit `DDS_LOADER_ARITHMETIC_OVERFLOW`
  check at the end of `GetSurfaceInfo` is compiled out).
* Machine integers are modeled as `Nat`; the source's `uint32_t`/`uint64_t`
  arithmetic in the functions below never wraps for header-sourced values, and
  explicit `UINT32_MAX` comparisons are kept where the source has them.
* Pointers are modeled as byte offsets (`pData`), pointer nullness as explicit
  `Bool` parameters, by-reference out-parameters as returned record fields, and
  the injected `vkCreateImage` function pointer as an
  `Option (Nat → VkResult)` applied to a call index.
* Byte buffers are `List Nat` (one element per byte, little-endian fields).
-/

/-- Result codes of the loader, translation of `DDS_LOADER_RESULT`
(DDSTextureLoaderVk.h lines 79-94). -/
inductive DDS_LOADER_RESULT where
  | DDS_LOADER_SUCCESS
  | DDS_LOADER_FAIL
  | DDS_LOADER_BAD_POINTER
  | DDS_LOADER_INVALID_ARG
  | DDS_LOADER_INVALID_DATA
  | DDS_LOADER_UNEXPECTED_EOF
  | DDS_LOADER_UNSUPPORTED_FORMAT
  | DDS_LOADER_UNSUPPORTED_LAYOUT
  | DDS_LOADER_BELOW_LIMITS
  | DDS_LOADER_NO_HOST_MEMORY
  | DDS_LOADER_NO_DEVICE_MEMORY
  | DDS_LOADER_NO_FUNCTION
  | DDS_LOADER_ARITHMETIC_OVERFLOW
  deriving DecidableEq, Repr

/-- The three `VkResult` values `vkCreateImage` may return, plus a catch-all
for any other value (the source maps it to `DDS_LOADER_FAIL`). -/
inductive VkResult where
  | VK_SUCCESS
  | VK_ERROR_OUT_OF_HOST_MEMORY
  | VK_ERROR_OUT_OF_DEVICE_MEMORY
  | VK_OTHER_RESULT
  deriving DecidableEq, Repr

/-- Image dimensionality, translation of `VkImageType` as used by the source. -/
inductive VkImageType where
  | VK_IMAGE_TYPE_1D
  | VK_IMAGE_TYPE_2D
  | VK_IMAGE_TYPE_3D
  | VK_IMAGE_TYPE_MAX_ENUM
  deriving DecidableEq, Repr

/-- The aspect-plane values that actually arise in the loader
(`FillInitData` lines 2631-2656): color, the combined depth-stencil mask
`VK_IMAGE_ASPECT_DEPTH_BIT | VK_IMAGE_ASPECT_STENCIL_BIT`, the three plane
bits, and the `MAX_ENUM` sentinel. -/
inductive VkImageAspect where
  | VK_IMAGE_ASPECT_COLOR_BIT
  | VK_IMAGE_ASPECT_DEPTH_AND_STENCIL_BITS
  | VK_IMAGE_ASPECT_PLANE_0_BIT
  | VK_IMAGE_ASPECT_PLANE_1_BIT
  | VK_IMAGE_ASPECT_PLANE_2_BIT
  | VK_IMAGE_ASPECT_FLAG_BITS_MAX_ENUM
  deriving DecidableEq, Repr

/-- Target-API pixel format enumeration. One constructor per `VK_FORMAT_*` name
that appears in an active (Vulkan 1.1, all relevant extensions present)
branch of the source; names are kept verbatim. -/
inductive VkFormat where
  | VK_FORMAT_UNDEFINED
  | VK_FORMAT_R32G32B32A32_UINT
  | VK_FORMAT_R32G32B32A32_SFLOAT
  | VK_FORMAT_R32G32B32A32_SINT
  | VK_FORMAT_R32G32B32_UINT
  | VK_FORMAT_R32G32B32_SFLOAT
  | VK_FORMAT_R32G32B32_SINT
  | VK_FORMAT_R16G16B16A16_UINT
  | VK_FORMAT_R16G16B16A16_SFLOAT
  | VK_FORMAT_R16G16B16A16_UNORM
  | VK_FORMAT_R16G16B16A16_SNORM
  | VK_FORMAT_R16G16B16A16_SINT
  | VK_FORMAT_R32G32_UINT
  | VK_FORMAT_R32G32_SFLOAT
  | VK_FORMAT_R32G32_SINT
  | VK_FORMAT_A2B10G10R10_UINT_PACK32
  | VK_FORMAT_A2B10G10R10_UNORM_PACK32
  | VK_FORMAT_B10G11R11_UFLOAT_PACK32
  | VK_FORMAT_R8G8B8A8_UINT
  | VK_FORMAT_R8G8B8A8_UNORM
  | VK_FORMAT_R8G8B8A8_SRGB
  | VK_FORMAT_R8G8B8A8_SNORM
  | VK_FORMAT_R8G8B8A8_SINT
  | VK_FORMAT_R16G16_UINT
  | VK_FORMAT_R16G16_SFLOAT
  | VK_FORMAT_R16G16_UNORM
  | VK_FORMAT_R16G16_SNORM
  | VK_FORMAT_R16G16_SINT
  | VK_FORMAT_R32_UINT
  | VK_FORMAT_D32_SFLOAT
  | VK_FORMAT_R32_SFLOAT
  | VK_FORMAT_R32_SINT
  | VK_FORMAT_D24_UNORM_S8_UINT
  | VK_FORMAT_R8G8_UINT
  | VK_FORMAT_R8G8_UNORM
  | VK_FORMAT_R8G8_SNORM
  | VK_FORMAT_R8G8_SINT
  | VK_FORMAT_R16_UINT
  | VK_FORMAT_R16_SFLOAT
  | VK_FORMAT_D16_UNORM
  | VK_FORMAT_R16_UNORM
  | VK_FORMAT_R16_SNORM
  | VK_FORMAT_R16_SINT
  | VK_FORMAT_R8_UINT
  | VK_FORMAT_R8_UNORM
  | VK_FORMAT_R8_SNORM
  | VK_FORMAT_R8_SINT
  | VK_FORMAT_E5B9G9R9_UFLOAT_PACK32
  | VK_FORMAT_G8B8G8R8_422_UNORM
  | VK_FORMAT_B8G8R8G8_422_UNORM
  | VK_FORMAT_BC1_RGBA_UNORM_BLOCK
  | VK_FORMAT_BC1_RGBA_SRGB_BLOCK
  | VK_FORMAT_BC2_UNORM_BLOCK
  | VK_FORMAT_BC2_SRGB_BLOCK
  | VK_FORMAT_BC3_UNORM_BLOCK
  | VK_FORMAT_BC3_SRGB_BLOCK
  | VK_FORMAT_BC4_UNORM_BLOCK
  | VK_FORMAT_BC4_SNORM_BLOCK
  | VK_FORMAT_BC5_UNORM_BLOCK
  | VK_FORMAT_BC5_SNORM_BLOCK
  | VK_FORMAT_R5G6B5_UNORM_PACK16
  | VK_FORMAT_A1R5G5B5_UNORM_PACK16
  | VK_FORMAT_B8G8R8A8_UNORM
  | VK_FORMAT_B8G8R8A8_SRGB
  | VK_FORMAT_BC6H_UFLOAT_BLOCK
  | VK_FORMAT_BC6H_SFLOAT_BLOCK
  | VK_FORMAT_BC7_UNORM_BLOCK
  | VK_FORMAT_BC7_SRGB_BLOCK
  | VK_FORMAT_G8_B8R8_2PLANE_420_UNORM
  | VK_FORMAT_G10X6_B10X6R10X6_2PLANE_420_UNORM_3PACK16
  | VK_FORMAT_G16_B16R16_2PLANE_420_UNORM
  | VK_FORMAT_G10X6B10X6G10X6R10X6_422_UNORM_4PACK16
  | VK_FORMAT_G16B16G16R16_422_UNORM
  | VK_FORMAT_A4R4G4B4_UNORM_PACK16_EXT
  | VK_FORMAT_G8_B8R8_2PLANE_422_UNORM
  | VK_FORMAT_R4G4_UNORM_PACK8
  | VK_FORMAT_R4G4B4A4_UNORM_PACK16
  | VK_FORMAT_B4G4R4A4_UNORM_PACK16
  | VK_FORMAT_B5G6R5_UNORM_PACK16
  | VK_FORMAT_R5G5B5A1_UNORM_PACK16
  | VK_FORMAT_B5G5R5A1_UNORM_PACK16
  | VK_FORMAT_R8_USCALED
  | VK_FORMAT_R8_SSCALED
  | VK_FORMAT_R8_SRGB
  | VK_FORMAT_R8G8_USCALED
  | VK_FORMAT_R8G8_SSCALED
  | VK_FORMAT_R8G8_SRGB
  | VK_FORMAT_R8G8B8_UNORM
  | VK_FORMAT_R8G8B8_SNORM
  | VK_FORMAT_R8G8B8_USCALED
  | VK_FORMAT_R8G8B8_SSCALED
  | VK_FORMAT_R8G8B8_UINT
  | VK_FORMAT_R8G8B8_SINT
  | VK_FORMAT_R8G8B8_SRGB
  | VK_FORMAT_B8G8R8_UNORM
  | VK_FORMAT_B8G8R8_SNORM
  | VK_FORMAT_B8G8R8_USCALED
  | VK_FORMAT_B8G8R8_SSCALED
  | VK_FORMAT_B8G8R8_UINT
  | VK_FORMAT_B8G8R8_SINT
  | VK_FORMAT_B8G8R8_SRGB
  | VK_FORMAT_R8G8B8A8_USCALED
  | VK_FORMAT_R8G8B8A8_SSCALED
  | VK_FORMAT_B8G8R8A8_SNORM
  | VK_FORMAT_B8G8R8A8_USCALED
  | VK_FORMAT_B8G8R8A8_SSCALED
  | VK_FORMAT_B8G8R8A8_UINT
  | VK_FORMAT_B8G8R8A8_SINT
  | VK_FORMAT_A8B8G8R8_UNORM_PACK32
  | VK_FORMAT_A8B8G8R8_SNORM_PACK32
  | VK_FORMAT_A8B8G8R8_USCALED_PACK32
  | VK_FORMAT_A8B8G8R8_SSCALED_PACK32
  | VK_FORMAT_A8B8G8R8_UINT_PACK32
  | VK_FORMAT_A8B8G8R8_SINT_PACK32
  | VK_FORMAT_A8B8G8R8_SRGB_PACK32
  | VK_FORMAT_A2R10G10B10_UNORM_PACK32
  | VK_FORMAT_A2R10G10B10_SNORM_PACK32
  | VK_FORMAT_A2R10G10B10_USCALED_PACK32
  | VK_FORMAT_A2R10G10B10_SSCALED_PACK32
  | VK_FORMAT_A2R10G10B10_UINT_PACK32
  | VK_FORMAT_A2R10G10B10_SINT_PACK32
  | VK_FORMAT_A2B10G10R10_SNORM_PACK32
  | VK_FORMAT_A2B10G10R10_USCALED_PACK32
  | VK_FORMAT_A2B10G10R10_SSCALED_PACK32
  | VK_FORMAT_A2B10G10R10_SINT_PACK32
  | VK_FORMAT_R16_USCALED
  | VK_FORMAT_R16_SSCALED
  | VK_FORMAT_R16G16_USCALED
  | VK_FORMAT_R16G16_SSCALED
  | VK_FORMAT_R16G16B16_UNORM
  | VK_FORMAT_R16G16B16_SNORM
  | VK_FORMAT_R16G16B16_USCALED
  | VK_FORMAT_R16G16B16_SSCALED
  | VK_FORMAT_R16G16B16_UINT
  | VK_FORMAT_R16G16B16_SINT
  | VK_FORMAT_R16G16B16_SFLOAT
  | VK_FORMAT_R16G16B16A16_USCALED
  | VK_FORMAT_R16G16B16A16_SSCALED
  | VK_FORMAT_R64_UINT
  | VK_FORMAT_R64_SINT
  | VK_FORMAT_R64_SFLOAT
  | VK_FORMAT_R64G64_UINT
  | VK_FORMAT_R64G64_SINT
  | VK_FORMAT_R64G64_SFLOAT
  | VK_FORMAT_R64G64B64_UINT
  | VK_FORMAT_R64G64B64_SINT
  | VK_FORMAT_R64G64B64_SFLOAT
  | VK_FORMAT_R64G64B64A64_UINT
  | VK_FORMAT_R64G64B64A64_SINT
  | VK_FORMAT_R64G64B64A64_SFLOAT
  | VK_FORMAT_X8_D24_UNORM_PACK32
  | VK_FORMAT_S8_UINT
  | VK_FORMAT_D16_UNORM_S8_UINT
  | VK_FORMAT_D32_SFLOAT_S8_UINT
  | VK_FORMAT_BC1_RGB_UNORM_BLOCK
  | VK_FORMAT_BC1_RGB_SRGB_BLOCK
  | VK_FORMAT_ETC2_R8G8B8_UNORM_BLOCK
  | VK_FORMAT_ETC2_R8G8B8_SRGB_BLOCK
  | VK_FORMAT_ETC2_R8G8B8A1_UNORM_BLOCK
  | VK_FORMAT_ETC2_R8G8B8A1_SRGB_BLOCK
  | VK_FORMAT_ETC2_R8G8B8A8_UNORM_BLOCK
  | VK_FORMAT_ETC2_R8G8B8A8_SRGB_BLOCK
  | VK_FORMAT_EAC_R11_UNORM_BLOCK
  | VK_FORMAT_EAC_R11_SNORM_BLOCK
  | VK_FORMAT_EAC_R11G11_UNORM_BLOCK
  | VK_FORMAT_EAC_R11G11_SNORM_BLOCK
  | VK_FORMAT_ASTC_4x4_UNORM_BLOCK
  | VK_FORMAT_ASTC_4x4_SRGB_BLOCK
  | VK_FORMAT_ASTC_5x4_UNORM_BLOCK
  | VK_FORMAT_ASTC_5x4_SRGB_BLOCK
  | VK_FORMAT_ASTC_5x5_UNORM_BLOCK
  | VK_FORMAT_ASTC_5x5_SRGB_BLOCK
  | VK_FORMAT_ASTC_6x5_UNORM_BLOCK
  | VK_FORMAT_ASTC_6x5_SRGB_BLOCK
  | VK_FORMAT_ASTC_6x6_UNORM_BLOCK
  | VK_FORMAT_ASTC_6x6_SRGB_BLOCK
  | VK_FORMAT_ASTC_8x5_UNORM_BLOCK
  | VK_FORMAT_ASTC_8x5_SRGB_BLOCK
  | VK_FORMAT_ASTC_8x6_UNORM_BLOCK
  | VK_FORMAT_ASTC_8x6_SRGB_BLOCK
  | VK_FORMAT_ASTC_8x8_UNORM_BLOCK
  | VK_FORMAT_ASTC_8x8_SRGB_BLOCK
  | VK_FORMAT_ASTC_10x5_UNORM_BLOCK
  | VK_FORMAT_ASTC_10x5_SRGB_BLOCK
  | VK_FORMAT_ASTC_10x6_UNORM_BLOCK
  | VK_FORMAT_ASTC_10x6_SRGB_BLOCK
  | VK_FORMAT_ASTC_10x8_UNORM_BLOCK
  | VK_FORMAT_ASTC_10x8_SRGB_BLOCK
  | VK_FORMAT_ASTC_10x10_UNORM_BLOCK
  | VK_FORMAT_ASTC_10x10_SRGB_BLOCK
  | VK_FORMAT_ASTC_12x10_UNORM_BLOCK
  | VK_FORMAT_ASTC_12x10_SRGB_BLOCK
  | VK_FORMAT_ASTC_12x12_UNORM_BLOCK
  | VK_FORMAT_ASTC_12x12_SRGB_BLOCK
  | VK_FORMAT_R10X6_UNORM_PACK16
  | VK_FORMAT_R10X6G10X6_UNORM_2PACK16
  | VK_FORMAT_R10X6G10X6B10X6A10X6_UNORM_4PACK16
  | VK_FORMAT_B10X6G10X6R10X6G10X6_422_UNORM_4PACK16
  | VK_FORMAT_R12X4_UNORM_PACK16
  | VK_FORMAT_R12X4G12X4_UNORM_2PACK16
  | VK_FORMAT_R12X4G12X4B12X4A12X4_UNORM_4PACK16
  | VK_FORMAT_G12X4B12X4G12X4R12X4_422_UNORM_4PACK16
  | VK_FORMAT_B12X4G12X4R12X4G12X4_422_UNORM_4PACK16
  | VK_FORMAT_B16G16R16G16_422_UNORM
  | VK_FORMAT_G10X6_B10X6R10X6_2PLANE_422_UNORM_3PACK16
  | VK_FORMAT_G12X4_B12X4R12X4_2PLANE_420_UNORM_3PACK16
  | VK_FORMAT_G12X4_B12X4R12X4_2PLANE_422_UNORM_3PACK16
  | VK_FORMAT_G16_B16R16_2PLANE_422_UNORM
  | VK_FORMAT_G8_B8_R8_3PLANE_420_UNORM
  | VK_FORMAT_G8_B8_R8_3PLANE_422_UNORM
  | VK_FORMAT_G8_B8_R8_3PLANE_444_UNORM
  | VK_FORMAT_G10X6_B10X6_R10X6_3PLANE_420_UNORM_3PACK16
  | VK_FORMAT_G10X6_B10X6_R10X6_3PLANE_422_UNORM_3PACK16
  | VK_FORMAT_G10X6_B10X6_R10X6_3PLANE_444_UNORM_3PACK16
  | VK_FORMAT_G12X4_B12X4_R12X4_3PLANE_420_UNORM_3PACK16
  | VK_FORMAT_G12X4_B12X4_R12X4_3PLANE_422_UNORM_3PACK16
  | VK_FORMAT_G12X4_B12X4_R12X4_3PLANE_444_UNORM_3PACK16
  | VK_FORMAT_G16_B16_R16_3PLANE_420_UNORM
  | VK_FORMAT_G16_B16_R16_3PLANE_422_UNORM
  | VK_FORMAT_G16_B16_R16_3PLANE_444_UNORM
  | VK_FORMAT_PVRTC1_2BPP_UNORM_BLOCK_IMG
  | VK_FORMAT_PVRTC1_4BPP_UNORM_BLOCK_IMG
  | VK_FORMAT_PVRTC2_2BPP_UNORM_BLOCK_IMG
  | VK_FORMAT_PVRTC2_4BPP_UNORM_BLOCK_IMG
  | VK_FORMAT_PVRTC1_2BPP_SRGB_BLOCK_IMG
  | VK_FORMAT_PVRTC1_4BPP_SRGB_BLOCK_IMG
  | VK_FORMAT_PVRTC2_2BPP_SRGB_BLOCK_IMG
  | VK_FORMAT_PVRTC2_4BPP_SRGB_BLOCK_IMG
  | VK_FORMAT_ASTC_4x4_SFLOAT_BLOCK_EXT
  | VK_FORMAT_ASTC_5x4_SFLOAT_BLOCK_EXT
  | VK_FORMAT_ASTC_5x5_SFLOAT_BLOCK_EXT
  | VK_FORMAT_ASTC_6x5_SFLOAT_BLOCK_EXT
  | VK_FORMAT_ASTC_6x6_SFLOAT_BLOCK_EXT
  | VK_FORMAT_ASTC_8x5_SFLOAT_BLOCK_EXT
  | VK_FORMAT_ASTC_8x6_SFLOAT_BLOCK_EXT
  | VK_FORMAT_ASTC_8x8_SFLOAT_BLOCK_EXT
  | VK_FORMAT_ASTC_10x5_SFLOAT_BLOCK_EXT
  | VK_FORMAT_ASTC_10x6_SFLOAT_BLOCK_EXT
  | VK_FORMAT_ASTC_10x8_SFLOAT_BLOCK_EXT
  | VK_FORMAT_ASTC_10x10_SFLOAT_BLOCK_EXT
  | VK_FORMAT_ASTC_12x10_SFLOAT_BLOCK_EXT
  | VK_FORMAT_ASTC_12x12_SFLOAT_BLOCK_EXT
  | VK_FORMAT_A4B4G4R4_UNORM_PACK16_EXT
  deriving DecidableEq, Repr

/-- Translation of `GetVkFormatPlaneCount`: plane count for a format (source lines 855-1170). -/
def getVkFormatPlaneCount (format : VkFormat) : Nat :=
  match format with
  | .VK_FORMAT_UNDEFINED => 0
  | .VK_FORMAT_R4G4_UNORM_PACK8 | .VK_FORMAT_R4G4B4A4_UNORM_PACK16
  | .VK_FORMAT_B4G4R4A4_UNORM_PACK16 | .VK_FORMAT_R5G6B5_UNORM_PACK16
  | .VK_FORMAT_B5G6R5_UNORM_PACK16 | .VK_FORMAT_R5G5B5A1_UNORM_PACK16
  | .VK_FORMAT_B5G5R5A1_UNORM_PACK16 | .VK_FORMAT_A1R5G5B5_UNORM_PACK16 | .VK_FORMAT_R8_UNORM
  | .VK_FORMAT_R8_SNORM | .VK_FORMAT_R8_USCALED | .VK_FORMAT_R8_SSCALED | .VK_FORMAT_R8_UINT
  | .VK_FORMAT_R8_SINT | .VK_FORMAT_R8_SRGB | .VK_FORMAT_R8G8_UNORM | .VK_FORMAT_R8G8_SNORM
  | .VK_FORMAT_R8G8_USCALED | .VK_FORMAT_R8G8_SSCALED | .VK_FORMAT_R8G8_UINT | .VK_FORMAT_R8G8_SINT
  | .VK_FORMAT_R8G8_SRGB | .VK_FORMAT_R8G8B8_UNORM | .VK_FORMAT_R8G8B8_SNORM
  | .VK_FORMAT_R8G8B8_USCALED | .VK_FORMAT_R8G8B8_SSCALED | .VK_FORMAT_R8G8B8_UINT
  | .VK_FORMAT_R8G8B8_SINT | .VK_FORMAT_R8G8B8_SRGB | .VK_FORMAT_B8G8R8_UNORM
  | .VK_FORMAT_B8G8R8_SNORM | .VK_FORMAT_B8G8R8_USCALED | .VK_FORMAT_B8G8R8_SSCALED
  | .VK_FORMAT_B8G8R8_UINT | .VK_FORMAT_B8G8R8_SINT | .VK_FORMAT_B8G8R8_SRGB
  | .VK_FORMAT_R8G8B8A8_UNORM | .VK_FORMAT_R8G8B8A8_SNORM | .VK_FORMAT_R8G8B8A8_USCALED
  | .VK_FORMAT_R8G8B8A8_SSCALED | .VK_FORMAT_R8G8B8A8_UINT | .VK_FORMAT_R8G8B8A8_SINT
  | .VK_FORMAT_R8G8B8A8_SRGB | .VK_FORMAT_B8G8R8A8_UNORM | .VK_FORMAT_B8G8R8A8_SNORM
  | .VK_FORMAT_B8G8R8A8_USCALED | .VK_FORMAT_B8G8R8A8_SSCALED | .VK_FORMAT_B8G8R8A8_UINT
  | .VK_FORMAT_B8G8R8A8_SINT | .VK_FORMAT_B8G8R8A8_SRGB | .VK_FORMAT_A8B8G8R8_UNORM_PACK32
  | .VK_FORMAT_A8B8G8R8_SNORM_PACK32 | .VK_FORMAT_A8B8G8R8_USCALED_PACK32
  | .VK_FORMAT_A8B8G8R8_SSCALED_PACK32 | .VK_FORMAT_A8B8G8R8_UINT_PACK32
  | .VK_FORMAT_A8B8G8R8_SINT_PACK32 | .VK_FORMAT_A8B8G8R8_SRGB_PACK32
  | .VK_FORMAT_A2R10G10B10_UNORM_PACK32 | .VK_FORMAT_A2R10G10B10_SNORM_PACK32
  | .VK_FORMAT_A2R10G10B10_USCALED_PACK32 | .VK_FORMAT_A2R10G10B10_SSCALED_PACK32
  | .VK_FORMAT_A2R10G10B10_UINT_PACK32 | .VK_FORMAT_A2R10G10B10_SINT_PACK32
  | .VK_FORMAT_A2B10G10R10_UNORM_PACK32 | .VK_FORMAT_A2B10G10R10_SNORM_PACK32
  | .VK_FORMAT_A2B10G10R10_USCALED_PACK32 | .VK_FORMAT_A2B10G10R10_SSCALED_PACK32
  | .VK_FORMAT_A2B10G10R10_UINT_PACK32 | .VK_FORMAT_A2B10G10R10_SINT_PACK32 | .VK_FORMAT_R16_UNORM
  | .VK_FORMAT_R16_SNORM | .VK_FORMAT_R16_USCALED | .VK_FORMAT_R16_SSCALED | .VK_FORMAT_R16_UINT
  | .VK_FORMAT_R16_SINT | .VK_FORMAT_R16_SFLOAT | .VK_FORMAT_R16G16_UNORM | .VK_FORMAT_R16G16_SNORM
  | .VK_FORMAT_R16G16_USCALED | .VK_FORMAT_R16G16_SSCALED | .VK_FORMAT_R16G16_UINT
  | .VK_FORMAT_R16G16_SINT | .VK_FORMAT_R16G16_SFLOAT | .VK_FORMAT_R16G16B16_UNORM
  | .VK_FORMAT_R16G16B16_SNORM | .VK_FORMAT_R16G16B16_USCALED | .VK_FORMAT_R16G16B16_SSCALED
  | .VK_FORMAT_R16G16B16_UINT | .VK_FORMAT_R16G16B16_SINT | .VK_FORMAT_R16G16B16_SFLOAT
  | .VK_FORMAT_R16G16B16A16_UNORM | .VK_FORMAT_R16G16B16A16_SNORM | .VK_FORMAT_R16G16B16A16_USCALED
  | .VK_FORMAT_R16G16B16A16_SSCALED | .VK_FORMAT_R16G16B16A16_UINT | .VK_FORMAT_R16G16B16A16_SINT
  | .VK_FORMAT_R16G16B16A16_SFLOAT | .VK_FORMAT_R32_UINT | .VK_FORMAT_R32_SINT
  | .VK_FORMAT_R32_SFLOAT | .VK_FORMAT_R32G32_UINT | .VK_FORMAT_R32G32_SINT
  | .VK_FORMAT_R32G32_SFLOAT | .VK_FORMAT_R32G32B32_UINT | .VK_FORMAT_R32G32B32_SINT
  | .VK_FORMAT_R32G32B32_SFLOAT | .VK_FORMAT_R32G32B32A32_UINT | .VK_FORMAT_R32G32B32A32_SINT
  | .VK_FORMAT_R32G32B32A32_SFLOAT | .VK_FORMAT_R64_UINT | .VK_FORMAT_R64_SINT
  | .VK_FORMAT_R64_SFLOAT | .VK_FORMAT_R64G64_UINT | .VK_FORMAT_R64G64_SINT
  | .VK_FORMAT_R64G64_SFLOAT | .VK_FORMAT_R64G64B64_UINT | .VK_FORMAT_R64G64B64_SINT
  | .VK_FORMAT_R64G64B64_SFLOAT | .VK_FORMAT_R64G64B64A64_UINT | .VK_FORMAT_R64G64B64A64_SINT
  | .VK_FORMAT_R64G64B64A64_SFLOAT | .VK_FORMAT_B10G11R11_UFLOAT_PACK32
  | .VK_FORMAT_E5B9G9R9_UFLOAT_PACK32 | .VK_FORMAT_D16_UNORM | .VK_FORMAT_X8_D24_UNORM_PACK32
  | .VK_FORMAT_D32_SFLOAT | .VK_FORMAT_S8_UINT | .VK_FORMAT_D16_UNORM_S8_UINT
  | .VK_FORMAT_D24_UNORM_S8_UINT | .VK_FORMAT_D32_SFLOAT_S8_UINT | .VK_FORMAT_BC1_RGB_UNORM_BLOCK
  | .VK_FORMAT_BC1_RGB_SRGB_BLOCK | .VK_FORMAT_BC1_RGBA_UNORM_BLOCK | .VK_FORMAT_BC1_RGBA_SRGB_BLOCK
  | .VK_FORMAT_BC2_UNORM_BLOCK | .VK_FORMAT_BC2_SRGB_BLOCK | .VK_FORMAT_BC3_UNORM_BLOCK
  | .VK_FORMAT_BC3_SRGB_BLOCK | .VK_FORMAT_BC4_UNORM_BLOCK | .VK_FORMAT_BC4_SNORM_BLOCK
  | .VK_FORMAT_BC5_UNORM_BLOCK | .VK_FORMAT_BC5_SNORM_BLOCK | .VK_FORMAT_BC6H_UFLOAT_BLOCK
  | .VK_FORMAT_BC6H_SFLOAT_BLOCK | .VK_FORMAT_BC7_UNORM_BLOCK | .VK_FORMAT_BC7_SRGB_BLOCK
  | .VK_FORMAT_ETC2_R8G8B8_UNORM_BLOCK | .VK_FORMAT_ETC2_R8G8B8_SRGB_BLOCK
  | .VK_FORMAT_ETC2_R8G8B8A1_UNORM_BLOCK | .VK_FORMAT_ETC2_R8G8B8A1_SRGB_BLOCK
  | .VK_FORMAT_ETC2_R8G8B8A8_UNORM_BLOCK | .VK_FORMAT_ETC2_R8G8B8A8_SRGB_BLOCK
  | .VK_FORMAT_EAC_R11_UNORM_BLOCK | .VK_FORMAT_EAC_R11_SNORM_BLOCK
  | .VK_FORMAT_EAC_R11G11_UNORM_BLOCK | .VK_FORMAT_EAC_R11G11_SNORM_BLOCK
  | .VK_FORMAT_ASTC_4x4_UNORM_BLOCK | .VK_FORMAT_ASTC_4x4_SRGB_BLOCK
  | .VK_FORMAT_ASTC_5x4_UNORM_BLOCK | .VK_FORMAT_ASTC_5x4_SRGB_BLOCK
  | .VK_FORMAT_ASTC_5x5_UNORM_BLOCK | .VK_FORMAT_ASTC_5x5_SRGB_BLOCK
  | .VK_FORMAT_ASTC_6x5_UNORM_BLOCK | .VK_FORMAT_ASTC_6x5_SRGB_BLOCK
  | .VK_FORMAT_ASTC_6x6_UNORM_BLOCK | .VK_FORMAT_ASTC_6x6_SRGB_BLOCK
  | .VK_FORMAT_ASTC_8x5_UNORM_BLOCK | .VK_FORMAT_ASTC_8x5_SRGB_BLOCK
  | .VK_FORMAT_ASTC_8x6_UNORM_BLOCK | .VK_FORMAT_ASTC_8x6_SRGB_BLOCK
  | .VK_FORMAT_ASTC_8x8_UNORM_BLOCK | .VK_FORMAT_ASTC_8x8_SRGB_BLOCK
  | .VK_FORMAT_ASTC_10x5_UNORM_BLOCK | .VK_FORMAT_ASTC_10x5_SRGB_BLOCK
  | .VK_FORMAT_ASTC_10x6_UNORM_BLOCK | .VK_FORMAT_ASTC_10x6_SRGB_BLOCK
  | .VK_FORMAT_ASTC_10x8_UNORM_BLOCK | .VK_FORMAT_ASTC_10x8_SRGB_BLOCK
  | .VK_FORMAT_ASTC_10x10_UNORM_BLOCK | .VK_FORMAT_ASTC_10x10_SRGB_BLOCK
  | .VK_FORMAT_ASTC_12x10_UNORM_BLOCK | .VK_FORMAT_ASTC_12x10_SRGB_BLOCK
  | .VK_FORMAT_ASTC_12x12_UNORM_BLOCK | .VK_FORMAT_ASTC_12x12_SRGB_BLOCK => 1
  | .VK_FORMAT_G8B8G8R8_422_UNORM | .VK_FORMAT_B8G8R8G8_422_UNORM | .VK_FORMAT_R10X6_UNORM_PACK16
  | .VK_FORMAT_R10X6G10X6_UNORM_2PACK16 | .VK_FORMAT_R10X6G10X6B10X6A10X6_UNORM_4PACK16
  | .VK_FORMAT_G10X6B10X6G10X6R10X6_422_UNORM_4PACK16
  | .VK_FORMAT_B10X6G10X6R10X6G10X6_422_UNORM_4PACK16 | .VK_FORMAT_R12X4_UNORM_PACK16
  | .VK_FORMAT_R12X4G12X4_UNORM_2PACK16 | .VK_FORMAT_R12X4G12X4B12X4A12X4_UNORM_4PACK16
  | .VK_FORMAT_G12X4B12X4G12X4R12X4_422_UNORM_4PACK16
  | .VK_FORMAT_B12X4G12X4R12X4G12X4_422_UNORM_4PACK16 | .VK_FORMAT_G16B16G16R16_422_UNORM
  | .VK_FORMAT_B16G16R16G16_422_UNORM => 1
  | .VK_FORMAT_G8_B8R8_2PLANE_420_UNORM | .VK_FORMAT_G8_B8R8_2PLANE_422_UNORM
  | .VK_FORMAT_G10X6_B10X6R10X6_2PLANE_420_UNORM_3PACK16
  | .VK_FORMAT_G10X6_B10X6R10X6_2PLANE_422_UNORM_3PACK16
  | .VK_FORMAT_G12X4_B12X4R12X4_2PLANE_420_UNORM_3PACK16
  | .VK_FORMAT_G12X4_B12X4R12X4_2PLANE_422_UNORM_3PACK16 | .VK_FORMAT_G16_B16R16_2PLANE_420_UNORM
  | .VK_FORMAT_G16_B16R16_2PLANE_422_UNORM => 2
  | .VK_FORMAT_G8_B8_R8_3PLANE_420_UNORM | .VK_FORMAT_G8_B8_R8_3PLANE_422_UNORM
  | .VK_FORMAT_G8_B8_R8_3PLANE_444_UNORM | .VK_FORMAT_G10X6_B10X6_R10X6_3PLANE_420_UNORM_3PACK16
  | .VK_FORMAT_G10X6_B10X6_R10X6_3PLANE_422_UNORM_3PACK16
  | .VK_FORMAT_G10X6_B10X6_R10X6_3PLANE_444_UNORM_3PACK16
  | .VK_FORMAT_G12X4_B12X4_R12X4_3PLANE_420_UNORM_3PACK16
  | .VK_FORMAT_G12X4_B12X4_R12X4_3PLANE_422_UNORM_3PACK16
  | .VK_FORMAT_G12X4_B12X4_R12X4_3PLANE_444_UNORM_3PACK16 | .VK_FORMAT_G16_B16_R16_3PLANE_420_UNORM
  | .VK_FORMAT_G16_B16_R16_3PLANE_422_UNORM | .VK_FORMAT_G16_B16_R16_3PLANE_444_UNORM => 3
  | .VK_FORMAT_PVRTC1_2BPP_UNORM_BLOCK_IMG | .VK_FORMAT_PVRTC1_4BPP_UNORM_BLOCK_IMG
  | .VK_FORMAT_PVRTC2_2BPP_UNORM_BLOCK_IMG | .VK_FORMAT_PVRTC2_4BPP_UNORM_BLOCK_IMG
  | .VK_FORMAT_PVRTC1_2BPP_SRGB_BLOCK_IMG | .VK_FORMAT_PVRTC1_4BPP_SRGB_BLOCK_IMG
  | .VK_FORMAT_PVRTC2_2BPP_SRGB_BLOCK_IMG | .VK_FORMAT_PVRTC2_4BPP_SRGB_BLOCK_IMG => 1
  | .VK_FORMAT_ASTC_4x4_SFLOAT_BLOCK_EXT | .VK_FORMAT_ASTC_5x4_SFLOAT_BLOCK_EXT
  | .VK_FORMAT_ASTC_5x5_SFLOAT_BLOCK_EXT | .VK_FORMAT_ASTC_6x5_SFLOAT_BLOCK_EXT
  | .VK_FORMAT_ASTC_6x6_SFLOAT_BLOCK_EXT | .VK_FORMAT_ASTC_8x5_SFLOAT_BLOCK_EXT
  | .VK_FORMAT_ASTC_8x6_SFLOAT_BLOCK_EXT | .VK_FORMAT_ASTC_8x8_SFLOAT_BLOCK_EXT
  | .VK_FORMAT_ASTC_10x5_SFLOAT_BLOCK_EXT | .VK_FORMAT_ASTC_10x6_SFLOAT_BLOCK_EXT
  | .VK_FORMAT_ASTC_10x8_SFLOAT_BLOCK_EXT | .VK_FORMAT_ASTC_10x10_SFLOAT_BLOCK_EXT
  | .VK_FORMAT_ASTC_12x10_SFLOAT_BLOCK_EXT | .VK_FORMAT_ASTC_12x12_SFLOAT_BLOCK_EXT => 1
  | .VK_FORMAT_A4R4G4B4_UNORM_PACK16_EXT | .VK_FORMAT_A4B4G4R4_UNORM_PACK16_EXT => 1

/-- Translation of `BitsPerPixel`: bits per pixel for a format, fractional block rates rounded
up (source lines 1175-1537); 0 for formats absent from the table. -/
def bitsPerPixel (fmt : VkFormat) : Nat :=
  match fmt with
  | .VK_FORMAT_R64G64B64A64_UINT | .VK_FORMAT_R64G64B64A64_SINT | .VK_FORMAT_R64G64B64A64_SFLOAT => 256
  | .VK_FORMAT_R64G64B64_UINT | .VK_FORMAT_R64G64B64_SINT | .VK_FORMAT_R64G64B64_SFLOAT => 192
  | .VK_FORMAT_R32G32B32A32_UINT | .VK_FORMAT_R32G32B32A32_SINT | .VK_FORMAT_R32G32B32A32_SFLOAT
  | .VK_FORMAT_R64G64_UINT | .VK_FORMAT_R64G64_SINT | .VK_FORMAT_R64G64_SFLOAT => 128
  | .VK_FORMAT_R32G32B32_UINT | .VK_FORMAT_R32G32B32_SINT | .VK_FORMAT_R32G32B32_SFLOAT => 96
  | .VK_FORMAT_R16G16B16A16_UNORM | .VK_FORMAT_R16G16B16A16_SNORM | .VK_FORMAT_R16G16B16A16_USCALED
  | .VK_FORMAT_R16G16B16A16_SSCALED | .VK_FORMAT_R16G16B16A16_UINT | .VK_FORMAT_R16G16B16A16_SINT
  | .VK_FORMAT_R16G16B16A16_SFLOAT | .VK_FORMAT_R32G32_UINT | .VK_FORMAT_R32G32_SINT
  | .VK_FORMAT_R32G32_SFLOAT | .VK_FORMAT_R64_UINT | .VK_FORMAT_R64_SINT | .VK_FORMAT_R64_SFLOAT => 64
  | .VK_FORMAT_R16G16B16_UNORM | .VK_FORMAT_R16G16B16_SNORM | .VK_FORMAT_R16G16B16_USCALED
  | .VK_FORMAT_R16G16B16_SSCALED | .VK_FORMAT_R16G16B16_UINT | .VK_FORMAT_R16G16B16_SINT
  | .VK_FORMAT_R16G16B16_SFLOAT => 48
  | .VK_FORMAT_D32_SFLOAT_S8_UINT => 40
  | .VK_FORMAT_R8G8B8A8_UNORM | .VK_FORMAT_R8G8B8A8_SNORM | .VK_FORMAT_R8G8B8A8_USCALED
  | .VK_FORMAT_R8G8B8A8_SSCALED | .VK_FORMAT_R8G8B8A8_UINT | .VK_FORMAT_R8G8B8A8_SINT
  | .VK_FORMAT_R8G8B8A8_SRGB | .VK_FORMAT_B8G8R8A8_UNORM | .VK_FORMAT_B8G8R8A8_SNORM
  | .VK_FORMAT_B8G8R8A8_USCALED | .VK_FORMAT_B8G8R8A8_SSCALED | .VK_FORMAT_B8G8R8A8_UINT
  | .VK_FORMAT_B8G8R8A8_SINT | .VK_FORMAT_B8G8R8A8_SRGB | .VK_FORMAT_A8B8G8R8_UNORM_PACK32
  | .VK_FORMAT_A8B8G8R8_SNORM_PACK32 | .VK_FORMAT_A8B8G8R8_USCALED_PACK32
  | .VK_FORMAT_A8B8G8R8_SSCALED_PACK32 | .VK_FORMAT_A8B8G8R8_UINT_PACK32
  | .VK_FORMAT_A8B8G8R8_SINT_PACK32 | .VK_FORMAT_A8B8G8R8_SRGB_PACK32
  | .VK_FORMAT_A2R10G10B10_UNORM_PACK32 | .VK_FORMAT_A2R10G10B10_SNORM_PACK32
  | .VK_FORMAT_A2R10G10B10_USCALED_PACK32 | .VK_FORMAT_A2R10G10B10_SSCALED_PACK32
  | .VK_FORMAT_A2R10G10B10_UINT_PACK32 | .VK_FORMAT_A2R10G10B10_SINT_PACK32
  | .VK_FORMAT_A2B10G10R10_UNORM_PACK32 | .VK_FORMAT_A2B10G10R10_SNORM_PACK32
  | .VK_FORMAT_A2B10G10R10_USCALED_PACK32 | .VK_FORMAT_A2B10G10R10_SSCALED_PACK32
  | .VK_FORMAT_A2B10G10R10_UINT_PACK32 | .VK_FORMAT_A2B10G10R10_SINT_PACK32
  | .VK_FORMAT_R16G16_UNORM | .VK_FORMAT_R16G16_SNORM | .VK_FORMAT_R16G16_USCALED
  | .VK_FORMAT_R16G16_SSCALED | .VK_FORMAT_R16G16_UINT | .VK_FORMAT_R16G16_SINT
  | .VK_FORMAT_R16G16_SFLOAT | .VK_FORMAT_R32_UINT | .VK_FORMAT_R32_SINT | .VK_FORMAT_R32_SFLOAT
  | .VK_FORMAT_B10G11R11_UFLOAT_PACK32 | .VK_FORMAT_E5B9G9R9_UFLOAT_PACK32
  | .VK_FORMAT_X8_D24_UNORM_PACK32 | .VK_FORMAT_D32_SFLOAT | .VK_FORMAT_D24_UNORM_S8_UINT => 32
  | .VK_FORMAT_R8G8B8_UNORM | .VK_FORMAT_R8G8B8_SNORM | .VK_FORMAT_R8G8B8_USCALED
  | .VK_FORMAT_R8G8B8_SSCALED | .VK_FORMAT_R8G8B8_UINT | .VK_FORMAT_R8G8B8_SINT
  | .VK_FORMAT_R8G8B8_SRGB | .VK_FORMAT_B8G8R8_UNORM | .VK_FORMAT_B8G8R8_SNORM
  | .VK_FORMAT_B8G8R8_USCALED | .VK_FORMAT_B8G8R8_SSCALED | .VK_FORMAT_B8G8R8_UINT
  | .VK_FORMAT_B8G8R8_SINT | .VK_FORMAT_B8G8R8_SRGB | .VK_FORMAT_D16_UNORM_S8_UINT => 24
  | .VK_FORMAT_R4G4B4A4_UNORM_PACK16 | .VK_FORMAT_B4G4R4A4_UNORM_PACK16
  | .VK_FORMAT_R5G6B5_UNORM_PACK16 | .VK_FORMAT_B5G6R5_UNORM_PACK16
  | .VK_FORMAT_R5G5B5A1_UNORM_PACK16 | .VK_FORMAT_B5G5R5A1_UNORM_PACK16
  | .VK_FORMAT_A1R5G5B5_UNORM_PACK16 | .VK_FORMAT_R8G8_UNORM | .VK_FORMAT_R8G8_SNORM
  | .VK_FORMAT_R8G8_USCALED | .VK_FORMAT_R8G8_SSCALED | .VK_FORMAT_R8G8_UINT | .VK_FORMAT_R8G8_SINT
  | .VK_FORMAT_R8G8_SRGB | .VK_FORMAT_R16_UNORM | .VK_FORMAT_R16_SNORM | .VK_FORMAT_R16_USCALED
  | .VK_FORMAT_R16_SSCALED | .VK_FORMAT_R16_UINT | .VK_FORMAT_R16_SINT | .VK_FORMAT_R16_SFLOAT
  | .VK_FORMAT_D16_UNORM => 16
  | .VK_FORMAT_R4G4_UNORM_PACK8 | .VK_FORMAT_R8_UNORM | .VK_FORMAT_R8_SNORM | .VK_FORMAT_R8_USCALED
  | .VK_FORMAT_R8_SSCALED | .VK_FORMAT_R8_UINT | .VK_FORMAT_R8_SINT | .VK_FORMAT_R8_SRGB
  | .VK_FORMAT_BC2_UNORM_BLOCK | .VK_FORMAT_BC2_SRGB_BLOCK | .VK_FORMAT_BC3_UNORM_BLOCK
  | .VK_FORMAT_BC3_SRGB_BLOCK | .VK_FORMAT_BC5_UNORM_BLOCK | .VK_FORMAT_BC5_SNORM_BLOCK
  | .VK_FORMAT_BC6H_UFLOAT_BLOCK | .VK_FORMAT_BC6H_SFLOAT_BLOCK | .VK_FORMAT_BC7_UNORM_BLOCK
  | .VK_FORMAT_BC7_SRGB_BLOCK | .VK_FORMAT_EAC_R11G11_UNORM_BLOCK
  | .VK_FORMAT_EAC_R11G11_SNORM_BLOCK | .VK_FORMAT_ASTC_4x4_UNORM_BLOCK
  | .VK_FORMAT_ASTC_4x4_SRGB_BLOCK | .VK_FORMAT_ASTC_5x4_UNORM_BLOCK
  | .VK_FORMAT_ASTC_5x4_SRGB_BLOCK | .VK_FORMAT_ASTC_5x5_UNORM_BLOCK
  | .VK_FORMAT_ASTC_5x5_SRGB_BLOCK | .VK_FORMAT_ASTC_6x5_UNORM_BLOCK
  | .VK_FORMAT_ASTC_6x5_SRGB_BLOCK | .VK_FORMAT_S8_UINT => 8
  | .VK_FORMAT_BC1_RGB_UNORM_BLOCK | .VK_FORMAT_BC1_RGB_SRGB_BLOCK | .VK_FORMAT_BC1_RGBA_UNORM_BLOCK
  | .VK_FORMAT_BC1_RGBA_SRGB_BLOCK | .VK_FORMAT_BC4_UNORM_BLOCK | .VK_FORMAT_BC4_SNORM_BLOCK
  | .VK_FORMAT_ETC2_R8G8B8_UNORM_BLOCK | .VK_FORMAT_ETC2_R8G8B8_SRGB_BLOCK
  | .VK_FORMAT_ETC2_R8G8B8A1_UNORM_BLOCK | .VK_FORMAT_ETC2_R8G8B8A1_SRGB_BLOCK
  | .VK_FORMAT_ETC2_R8G8B8A8_UNORM_BLOCK | .VK_FORMAT_ETC2_R8G8B8A8_SRGB_BLOCK
  | .VK_FORMAT_EAC_R11_UNORM_BLOCK | .VK_FORMAT_EAC_R11_SNORM_BLOCK
  | .VK_FORMAT_ASTC_6x6_UNORM_BLOCK | .VK_FORMAT_ASTC_6x6_SRGB_BLOCK
  | .VK_FORMAT_ASTC_8x5_UNORM_BLOCK | .VK_FORMAT_ASTC_8x5_SRGB_BLOCK
  | .VK_FORMAT_ASTC_8x6_UNORM_BLOCK | .VK_FORMAT_ASTC_8x6_SRGB_BLOCK
  | .VK_FORMAT_ASTC_10x5_UNORM_BLOCK | .VK_FORMAT_ASTC_10x5_SRGB_BLOCK
  | .VK_FORMAT_ASTC_10x6_UNORM_BLOCK | .VK_FORMAT_ASTC_10x6_SRGB_BLOCK => 4
  | .VK_FORMAT_ASTC_8x8_UNORM_BLOCK | .VK_FORMAT_ASTC_8x8_SRGB_BLOCK
  | .VK_FORMAT_ASTC_10x8_UNORM_BLOCK | .VK_FORMAT_ASTC_10x8_SRGB_BLOCK
  | .VK_FORMAT_ASTC_10x10_UNORM_BLOCK | .VK_FORMAT_ASTC_10x10_SRGB_BLOCK
  | .VK_FORMAT_ASTC_12x10_UNORM_BLOCK | .VK_FORMAT_ASTC_12x10_SRGB_BLOCK => 2
  | .VK_FORMAT_ASTC_12x12_UNORM_BLOCK | .VK_FORMAT_ASTC_12x12_SRGB_BLOCK => 1
  | .VK_FORMAT_R10X6G10X6B10X6A10X6_UNORM_4PACK16
  | .VK_FORMAT_G10X6B10X6G10X6R10X6_422_UNORM_4PACK16
  | .VK_FORMAT_B10X6G10X6R10X6G10X6_422_UNORM_4PACK16
  | .VK_FORMAT_R12X4G12X4B12X4A12X4_UNORM_4PACK16
  | .VK_FORMAT_G12X4B12X4G12X4R12X4_422_UNORM_4PACK16
  | .VK_FORMAT_B12X4G12X4R12X4G12X4_422_UNORM_4PACK16 | .VK_FORMAT_G16B16G16R16_422_UNORM
  | .VK_FORMAT_B16G16R16G16_422_UNORM => 64
  | .VK_FORMAT_G10X6_B10X6_R10X6_3PLANE_444_UNORM_3PACK16
  | .VK_FORMAT_G12X4_B12X4_R12X4_3PLANE_444_UNORM_3PACK16 | .VK_FORMAT_G16_B16_R16_3PLANE_444_UNORM => 48
  | .VK_FORMAT_G8B8G8R8_422_UNORM | .VK_FORMAT_B8G8R8G8_422_UNORM
  | .VK_FORMAT_R10X6G10X6_UNORM_2PACK16 | .VK_FORMAT_R12X4G12X4_UNORM_2PACK16
  | .VK_FORMAT_G10X6_B10X6_R10X6_3PLANE_422_UNORM_3PACK16
  | .VK_FORMAT_G10X6_B10X6R10X6_2PLANE_422_UNORM_3PACK16
  | .VK_FORMAT_G12X4_B12X4_R12X4_3PLANE_422_UNORM_3PACK16
  | .VK_FORMAT_G12X4_B12X4R12X4_2PLANE_422_UNORM_3PACK16 | .VK_FORMAT_G16_B16_R16_3PLANE_422_UNORM
  | .VK_FORMAT_G16_B16R16_2PLANE_422_UNORM => 32
  | .VK_FORMAT_G8_B8_R8_3PLANE_444_UNORM | .VK_FORMAT_G10X6_B10X6_R10X6_3PLANE_420_UNORM_3PACK16
  | .VK_FORMAT_G10X6_B10X6R10X6_2PLANE_420_UNORM_3PACK16
  | .VK_FORMAT_G12X4_B12X4_R12X4_3PLANE_420_UNORM_3PACK16
  | .VK_FORMAT_G12X4_B12X4R12X4_2PLANE_420_UNORM_3PACK16 | .VK_FORMAT_G16_B16_R16_3PLANE_420_UNORM
  | .VK_FORMAT_G16_B16R16_2PLANE_420_UNORM => 24
  | .VK_FORMAT_R10X6_UNORM_PACK16 | .VK_FORMAT_R12X4_UNORM_PACK16
  | .VK_FORMAT_G8_B8_R8_3PLANE_422_UNORM | .VK_FORMAT_G8_B8R8_2PLANE_422_UNORM => 16
  | .VK_FORMAT_G8_B8_R8_3PLANE_420_UNORM | .VK_FORMAT_G8_B8R8_2PLANE_420_UNORM => 12
  | .VK_FORMAT_PVRTC1_4BPP_UNORM_BLOCK_IMG | .VK_FORMAT_PVRTC2_4BPP_UNORM_BLOCK_IMG
  | .VK_FORMAT_PVRTC1_4BPP_SRGB_BLOCK_IMG | .VK_FORMAT_PVRTC2_4BPP_SRGB_BLOCK_IMG => 4
  | .VK_FORMAT_PVRTC1_2BPP_UNORM_BLOCK_IMG | .VK_FORMAT_PVRTC2_2BPP_UNORM_BLOCK_IMG
  | .VK_FORMAT_PVRTC1_2BPP_SRGB_BLOCK_IMG | .VK_FORMAT_PVRTC2_2BPP_SRGB_BLOCK_IMG => 2
  | .VK_FORMAT_ASTC_4x4_SFLOAT_BLOCK_EXT | .VK_FORMAT_ASTC_5x4_SFLOAT_BLOCK_EXT
  | .VK_FORMAT_ASTC_5x5_SFLOAT_BLOCK_EXT | .VK_FORMAT_ASTC_6x5_SFLOAT_BLOCK_EXT => 8
  | .VK_FORMAT_ASTC_6x6_SFLOAT_BLOCK_EXT | .VK_FORMAT_ASTC_8x5_SFLOAT_BLOCK_EXT
  | .VK_FORMAT_ASTC_8x6_SFLOAT_BLOCK_EXT | .VK_FORMAT_ASTC_10x5_SFLOAT_BLOCK_EXT
  | .VK_FORMAT_ASTC_10x6_SFLOAT_BLOCK_EXT => 4
  | .VK_FORMAT_ASTC_8x8_SFLOAT_BLOCK_EXT | .VK_FORMAT_ASTC_10x8_SFLOAT_BLOCK_EXT
  | .VK_FORMAT_ASTC_10x10_SFLOAT_BLOCK_EXT | .VK_FORMAT_ASTC_12x10_SFLOAT_BLOCK_EXT => 2
  | .VK_FORMAT_ASTC_12x12_SFLOAT_BLOCK_EXT => 1
  | .VK_FORMAT_A4R4G4B4_UNORM_PACK16_EXT | .VK_FORMAT_A4B4G4R4_UNORM_PACK16_EXT => 16
  | _ => 0

/-- The layout-family classification switch at the head of `GetSurfaceInfo`
(source lines 1562-2035): block-compressed / packed / 2-plane / 3-plane
with block width, block height and bytes per block; ordinary otherwise. -/
inductive SurfaceClass where
  | block (blockWidth blockHeight bytesPerBlock : Nat)
  | packed (blockWidth blockHeight bytesPerBlock : Nat)
  | plane2 (blockWidth blockHeight bytesPerBlock : Nat)
  | plane3 (blockWidth blockHeight bytesPerBlock : Nat)
  | ordinary
  deriving DecidableEq, Repr

def surfaceClassify (fmt : VkFormat) : SurfaceClass :=
  match fmt with
  | .VK_FORMAT_BC1_RGB_UNORM_BLOCK | .VK_FORMAT_BC1_RGB_SRGB_BLOCK | .VK_FORMAT_BC1_RGBA_UNORM_BLOCK
  | .VK_FORMAT_BC1_RGBA_SRGB_BLOCK | .VK_FORMAT_BC4_UNORM_BLOCK | .VK_FORMAT_BC4_SNORM_BLOCK
  | .VK_FORMAT_ETC2_R8G8B8_UNORM_BLOCK | .VK_FORMAT_ETC2_R8G8B8_SRGB_BLOCK
  | .VK_FORMAT_ETC2_R8G8B8A1_UNORM_BLOCK | .VK_FORMAT_ETC2_R8G8B8A1_SRGB_BLOCK
  | .VK_FORMAT_EAC_R11_UNORM_BLOCK | .VK_FORMAT_EAC_R11_SNORM_BLOCK => .block 4 4 8
  | .VK_FORMAT_BC2_UNORM_BLOCK | .VK_FORMAT_BC2_SRGB_BLOCK | .VK_FORMAT_BC3_UNORM_BLOCK
  | .VK_FORMAT_BC3_SRGB_BLOCK | .VK_FORMAT_BC5_UNORM_BLOCK | .VK_FORMAT_BC5_SNORM_BLOCK
  | .VK_FORMAT_BC6H_UFLOAT_BLOCK | .VK_FORMAT_BC6H_SFLOAT_BLOCK | .VK_FORMAT_BC7_UNORM_BLOCK
  | .VK_FORMAT_BC7_SRGB_BLOCK | .VK_FORMAT_ETC2_R8G8B8A8_UNORM_BLOCK
  | .VK_FORMAT_ETC2_R8G8B8A8_SRGB_BLOCK | .VK_FORMAT_EAC_R11G11_UNORM_BLOCK
  | .VK_FORMAT_EAC_R11G11_SNORM_BLOCK | .VK_FORMAT_ASTC_4x4_UNORM_BLOCK
  | .VK_FORMAT_ASTC_4x4_SRGB_BLOCK => .block 4 4 16
  | .VK_FORMAT_ASTC_5x4_UNORM_BLOCK | .VK_FORMAT_ASTC_5x4_SRGB_BLOCK => .block 5 4 16
  | .VK_FORMAT_ASTC_5x5_UNORM_BLOCK | .VK_FORMAT_ASTC_5x5_SRGB_BLOCK => .block 5 5 16
  | .VK_FORMAT_ASTC_6x5_UNORM_BLOCK | .VK_FORMAT_ASTC_6x5_SRGB_BLOCK => .block 6 5 16
  | .VK_FORMAT_ASTC_6x6_UNORM_BLOCK | .VK_FORMAT_ASTC_6x6_SRGB_BLOCK => .block 6 6 16
  | .VK_FORMAT_ASTC_8x5_UNORM_BLOCK | .VK_FORMAT_ASTC_8x5_SRGB_BLOCK => .block 8 5 16
  | .VK_FORMAT_ASTC_8x6_UNORM_BLOCK | .VK_FORMAT_ASTC_8x6_SRGB_BLOCK => .block 8 6 16
  | .VK_FORMAT_ASTC_8x8_UNORM_BLOCK | .VK_FORMAT_ASTC_8x8_SRGB_BLOCK => .block 8 8 16
  | .VK_FORMAT_ASTC_10x5_UNORM_BLOCK | .VK_FORMAT_ASTC_10x5_SRGB_BLOCK => .block 10 5 16
  | .VK_FORMAT_ASTC_10x6_UNORM_BLOCK | .VK_FORMAT_ASTC_10x6_SRGB_BLOCK => .block 10 6 16
  | .VK_FORMAT_ASTC_10x8_UNORM_BLOCK | .VK_FORMAT_ASTC_10x8_SRGB_BLOCK => .block 10 8 16
  | .VK_FORMAT_ASTC_10x10_UNORM_BLOCK | .VK_FORMAT_ASTC_10x10_SRGB_BLOCK => .block 10 10 16
  | .VK_FORMAT_ASTC_12x10_UNORM_BLOCK | .VK_FORMAT_ASTC_12x10_SRGB_BLOCK => .block 12 10 16
  | .VK_FORMAT_ASTC_12x12_UNORM_BLOCK | .VK_FORMAT_ASTC_12x12_SRGB_BLOCK => .block 12 12 16
  | .VK_FORMAT_G8B8G8R8_422_UNORM | .VK_FORMAT_B8G8R8G8_422_UNORM => .packed 2 1 4
  | .VK_FORMAT_G10X6B10X6G10X6R10X6_422_UNORM_4PACK16
  | .VK_FORMAT_B10X6G10X6R10X6G10X6_422_UNORM_4PACK16
  | .VK_FORMAT_G12X4B12X4G12X4R12X4_422_UNORM_4PACK16
  | .VK_FORMAT_B12X4G12X4R12X4G12X4_422_UNORM_4PACK16 | .VK_FORMAT_G16B16G16R16_422_UNORM
  | .VK_FORMAT_B16G16R16G16_422_UNORM => .packed 2 1 8
  | .VK_FORMAT_G8_B8R8_2PLANE_420_UNORM => .plane2 2 2 6
  | .VK_FORMAT_G8_B8R8_2PLANE_422_UNORM => .plane2 2 1 4
  | .VK_FORMAT_G10X6_B10X6R10X6_2PLANE_420_UNORM_3PACK16
  | .VK_FORMAT_G12X4_B12X4R12X4_2PLANE_420_UNORM_3PACK16 | .VK_FORMAT_G16_B16R16_2PLANE_420_UNORM => .plane2 2 2 12
  | .VK_FORMAT_G10X6_B10X6R10X6_2PLANE_422_UNORM_3PACK16
  | .VK_FORMAT_G12X4_B12X4R12X4_2PLANE_422_UNORM_3PACK16 | .VK_FORMAT_G16_B16R16_2PLANE_422_UNORM => .plane2 2 1 8
  | .VK_FORMAT_G8_B8_R8_3PLANE_420_UNORM => .plane3 2 2 6
  | .VK_FORMAT_G8_B8_R8_3PLANE_422_UNORM => .plane3 2 1 4
  | .VK_FORMAT_G8_B8_R8_3PLANE_444_UNORM => .plane3 1 1 3
  | .VK_FORMAT_G10X6_B10X6_R10X6_3PLANE_420_UNORM_3PACK16
  | .VK_FORMAT_G12X4_B12X4_R12X4_3PLANE_420_UNORM_3PACK16 | .VK_FORMAT_G16_B16_R16_3PLANE_420_UNORM => .plane3 2 2 12
  | .VK_FORMAT_G10X6_B10X6_R10X6_3PLANE_422_UNORM_3PACK16
  | .VK_FORMAT_G12X4_B12X4_R12X4_3PLANE_422_UNORM_3PACK16 | .VK_FORMAT_G16_B16_R16_3PLANE_422_UNORM => .plane3 2 1 8
  | .VK_FORMAT_G10X6_B10X6_R10X6_3PLANE_444_UNORM_3PACK16
  | .VK_FORMAT_G12X4_B12X4_R12X4_3PLANE_444_UNORM_3PACK16 | .VK_FORMAT_G16_B16_R16_3PLANE_444_UNORM => .plane3 1 1 6
  | .VK_FORMAT_PVRTC1_2BPP_UNORM_BLOCK_IMG | .VK_FORMAT_PVRTC2_2BPP_UNORM_BLOCK_IMG
  | .VK_FORMAT_PVRTC1_2BPP_SRGB_BLOCK_IMG | .VK_FORMAT_PVRTC2_2BPP_SRGB_BLOCK_IMG => .block 8 4 8
  | .VK_FORMAT_PVRTC1_4BPP_UNORM_BLOCK_IMG | .VK_FORMAT_PVRTC2_4BPP_UNORM_BLOCK_IMG
  | .VK_FORMAT_PVRTC1_4BPP_SRGB_BLOCK_IMG | .VK_FORMAT_PVRTC2_4BPP_SRGB_BLOCK_IMG => .block 8 4 8
  | .VK_FORMAT_ASTC_4x4_SFLOAT_BLOCK_EXT => .block 4 4 16
  | .VK_FORMAT_ASTC_5x4_SFLOAT_BLOCK_EXT => .block 5 4 16
  | .VK_FORMAT_ASTC_5x5_SFLOAT_BLOCK_EXT => .block 5 5 16
  | .VK_FORMAT_ASTC_6x5_SFLOAT_BLOCK_EXT => .block 6 5 16
  | .VK_FORMAT_ASTC_6x6_SFLOAT_BLOCK_EXT => .block 6 6 16
  | .VK_FORMAT_ASTC_8x5_SFLOAT_BLOCK_EXT => .block 8 5 16
  | .VK_FORMAT_ASTC_8x6_SFLOAT_BLOCK_EXT => .block 8 6 16
  | .VK_FORMAT_ASTC_8x8_SFLOAT_BLOCK_EXT => .block 8 8 16
  | .VK_FORMAT_ASTC_10x5_SFLOAT_BLOCK_EXT => .block 10 5 16
  | .VK_FORMAT_ASTC_10x6_SFLOAT_BLOCK_EXT => .block 10 6 16
  | .VK_FORMAT_ASTC_10x8_SFLOAT_BLOCK_EXT => .block 10 8 16
  | .VK_FORMAT_ASTC_10x10_SFLOAT_BLOCK_EXT => .block 10 10 16
  | .VK_FORMAT_ASTC_12x10_SFLOAT_BLOCK_EXT => .block 12 10 16
  | .VK_FORMAT_ASTC_12x12_SFLOAT_BLOCK_EXT => .block 12 12 16
  | _ => .ordinary

/-- Translation of `MakeSRGB`: SRGB counterpart of a format, identity if none (source lines 2468-2576). -/
def makeSRGB (format : VkFormat) : VkFormat :=
  match format with
  | .VK_FORMAT_R8_UNORM => .VK_FORMAT_R8_SRGB
  | .VK_FORMAT_R8G8_UNORM => .VK_FORMAT_R8G8_SRGB
  | .VK_FORMAT_R8G8B8_UNORM => .VK_FORMAT_R8G8B8_SRGB
  | .VK_FORMAT_B8G8R8_UNORM => .VK_FORMAT_B8G8R8_SRGB
  | .VK_FORMAT_R8G8B8A8_UNORM => .VK_FORMAT_R8G8B8A8_SRGB
  | .VK_FORMAT_B8G8R8A8_UNORM => .VK_FORMAT_B8G8R8A8_SRGB
  | .VK_FORMAT_A8B8G8R8_UNORM_PACK32 => .VK_FORMAT_A8B8G8R8_SRGB_PACK32
  | .VK_FORMAT_BC1_RGB_UNORM_BLOCK => .VK_FORMAT_BC1_RGB_SRGB_BLOCK
  | .VK_FORMAT_BC1_RGBA_UNORM_BLOCK => .VK_FORMAT_BC1_RGBA_SRGB_BLOCK
  | .VK_FORMAT_BC2_UNORM_BLOCK => .VK_FORMAT_BC2_SRGB_BLOCK
  | .VK_FORMAT_BC3_UNORM_BLOCK => .VK_FORMAT_BC3_SRGB_BLOCK
  | .VK_FORMAT_BC7_UNORM_BLOCK => .VK_FORMAT_BC7_SRGB_BLOCK
  | .VK_FORMAT_ETC2_R8G8B8_UNORM_BLOCK => .VK_FORMAT_ETC2_R8G8B8_SRGB_BLOCK
  | .VK_FORMAT_ETC2_R8G8B8A1_UNORM_BLOCK => .VK_FORMAT_ETC2_R8G8B8A1_SRGB_BLOCK
  | .VK_FORMAT_ETC2_R8G8B8A8_UNORM_BLOCK => .VK_FORMAT_ETC2_R8G8B8A8_SRGB_BLOCK
  | .VK_FORMAT_ASTC_4x4_UNORM_BLOCK => .VK_FORMAT_ASTC_4x4_SRGB_BLOCK
  | .VK_FORMAT_ASTC_5x4_UNORM_BLOCK => .VK_FORMAT_ASTC_5x4_SRGB_BLOCK
  | .VK_FORMAT_ASTC_5x5_UNORM_BLOCK => .VK_FORMAT_ASTC_5x5_SRGB_BLOCK
  | .VK_FORMAT_ASTC_6x5_UNORM_BLOCK => .VK_FORMAT_ASTC_6x5_SRGB_BLOCK
  | .VK_FORMAT_ASTC_6x6_UNORM_BLOCK => .VK_FORMAT_ASTC_6x6_SRGB_BLOCK
  | .VK_FORMAT_ASTC_8x5_UNORM_BLOCK => .VK_FORMAT_ASTC_8x5_SRGB_BLOCK
  | .VK_FORMAT_ASTC_8x6_UNORM_BLOCK => .VK_FORMAT_ASTC_8x6_SRGB_BLOCK
  | .VK_FORMAT_ASTC_8x8_UNORM_BLOCK => .VK_FORMAT_ASTC_8x8_SRGB_BLOCK
  | .VK_FORMAT_ASTC_10x5_UNORM_BLOCK => .VK_FORMAT_ASTC_10x5_SRGB_BLOCK
  | .VK_FORMAT_ASTC_10x6_UNORM_BLOCK => .VK_FORMAT_ASTC_10x6_SRGB_BLOCK
  | .VK_FORMAT_ASTC_10x8_UNORM_BLOCK => .VK_FORMAT_ASTC_10x8_SRGB_BLOCK
  | .VK_FORMAT_ASTC_10x10_UNORM_BLOCK => .VK_FORMAT_ASTC_10x10_SRGB_BLOCK
  | .VK_FORMAT_ASTC_12x10_UNORM_BLOCK => .VK_FORMAT_ASTC_12x10_SRGB_BLOCK
  | .VK_FORMAT_ASTC_12x12_UNORM_BLOCK => .VK_FORMAT_ASTC_12x12_SRGB_BLOCK
  | .VK_FORMAT_PVRTC1_2BPP_UNORM_BLOCK_IMG => .VK_FORMAT_PVRTC1_2BPP_SRGB_BLOCK_IMG
  | .VK_FORMAT_PVRTC1_4BPP_UNORM_BLOCK_IMG => .VK_FORMAT_PVRTC1_4BPP_SRGB_BLOCK_IMG
  | .VK_FORMAT_PVRTC2_2BPP_UNORM_BLOCK_IMG => .VK_FORMAT_PVRTC2_2BPP_SRGB_BLOCK_IMG
  | .VK_FORMAT_PVRTC2_4BPP_UNORM_BLOCK_IMG => .VK_FORMAT_PVRTC2_4BPP_SRGB_BLOCK_IMG
  | _ => format

/-- Translation of `IsDepthStencil` (source lines 2580-2596). -/
def isDepthStencil (fmt : VkFormat) : Bool :=
  match fmt with
  | .VK_FORMAT_D16_UNORM | .VK_FORMAT_X8_D24_UNORM_PACK32 | .VK_FORMAT_D32_SFLOAT
  | .VK_FORMAT_S8_UINT | .VK_FORMAT_D16_UNORM_S8_UINT | .VK_FORMAT_D24_UNORM_S8_UINT
  | .VK_FORMAT_D32_SFLOAT_S8_UINT => true
  | _ => false

/-- Translation of `DXGIToVkFormat`: DXGI format code to Vulkan format (source lines 404-850).
Regular TYPELESS formats map to UINT, BC TYPELESS to UNORM, BC6H TYPELESS to
UFLOAT; codes with no Vulkan equivalent map to UNDEFINED. -/
def dxgiToVkFormat (dxgi_format : Nat) : VkFormat :=
  match dxgi_format with
  | 0 => .VK_FORMAT_UNDEFINED
  | 1 => .VK_FORMAT_R32G32B32A32_UINT
  | 2 => .VK_FORMAT_R32G32B32A32_SFLOAT
  | 3 => .VK_FORMAT_R32G32B32A32_UINT
  | 4 => .VK_FORMAT_R32G32B32A32_SINT
  | 5 => .VK_FORMAT_R32G32B32_UINT
  | 6 => .VK_FORMAT_R32G32B32_SFLOAT
  | 7 => .VK_FORMAT_R32G32B32_UINT
  | 8 => .VK_FORMAT_R32G32B32_SINT
  | 9 => .VK_FORMAT_R16G16B16A16_UINT
  | 10 => .VK_FORMAT_R16G16B16A16_SFLOAT
  | 11 => .VK_FORMAT_R16G16B16A16_UNORM
  | 12 => .VK_FORMAT_R16G16B16A16_UINT
  | 13 => .VK_FORMAT_R16G16B16A16_SNORM
  | 14 => .VK_FORMAT_R16G16B16A16_SINT
  | 15 => .VK_FORMAT_R32G32_UINT
  | 16 => .VK_FORMAT_R32G32_SFLOAT
  | 17 => .VK_FORMAT_R32G32_UINT
  | 18 => .VK_FORMAT_R32G32_SINT
  | 19 => .VK_FORMAT_UNDEFINED
  | 20 => .VK_FORMAT_UNDEFINED
  | 21 => .VK_FORMAT_UNDEFINED
  | 22 => .VK_FORMAT_UNDEFINED
  | 23 => .VK_FORMAT_A2B10G10R10_UINT_PACK32
  | 24 => .VK_FORMAT_A2B10G10R10_UNORM_PACK32
  | 25 => .VK_FORMAT_A2B10G10R10_UINT_PACK32
  | 26 => .VK_FORMAT_B10G11R11_UFLOAT_PACK32
  | 27 => .VK_FORMAT_R8G8B8A8_UINT
  | 28 => .VK_FORMAT_R8G8B8A8_UNORM
  | 29 => .VK_FORMAT_R8G8B8A8_SRGB
  | 30 => .VK_FORMAT_R8G8B8A8_UINT
  | 31 => .VK_FORMAT_R8G8B8A8_SNORM
  | 32 => .VK_FORMAT_R8G8B8A8_SINT
  | 33 => .VK_FORMAT_R16G16_UINT
  | 34 => .VK_FORMAT_R16G16_SFLOAT
  | 35 => .VK_FORMAT_R16G16_UNORM
  | 36 => .VK_FORMAT_R16G16_UINT
  | 37 => .VK_FORMAT_R16G16_SNORM
  | 38 => .VK_FORMAT_R16G16_SINT
  | 39 => .VK_FORMAT_R32_UINT
  | 40 => .VK_FORMAT_D32_SFLOAT
  | 41 => .VK_FORMAT_R32_SFLOAT
  | 42 => .VK_FORMAT_R32_UINT
  | 43 => .VK_FORMAT_R32_SINT
  | 44 => .VK_FORMAT_D24_UNORM_S8_UINT
  | 45 => .VK_FORMAT_D24_UNORM_S8_UINT
  | 46 => .VK_FORMAT_UNDEFINED
  | 47 => .VK_FORMAT_UNDEFINED
  | 48 => .VK_FORMAT_R8G8_UINT
  | 49 => .VK_FORMAT_R8G8_UNORM
  | 50 => .VK_FORMAT_R8G8_UINT
  | 51 => .VK_FORMAT_R8G8_SNORM
  | 52 => .VK_FORMAT_R8G8_SINT
  | 53 => .VK_FORMAT_R16_UINT
  | 54 => .VK_FORMAT_R16_SFLOAT
  | 55 => .VK_FORMAT_D16_UNORM
  | 56 => .VK_FORMAT_R16_UNORM
  | 57 => .VK_FORMAT_R16_UINT
  | 58 => .VK_FORMAT_R16_SNORM
  | 59 => .VK_FORMAT_R16_SINT
  | 60 => .VK_FORMAT_R8_UINT
  | 61 => .VK_FORMAT_R8_UNORM
  | 62 => .VK_FORMAT_R8_UINT
  | 63 => .VK_FORMAT_R8_SNORM
  | 64 => .VK_FORMAT_R8_SINT
  | 65 => .VK_FORMAT_UNDEFINED
  | 66 => .VK_FORMAT_UNDEFINED
  | 67 => .VK_FORMAT_E5B9G9R9_UFLOAT_PACK32
  | 68 => .VK_FORMAT_G8B8G8R8_422_UNORM
  | 69 => .VK_FORMAT_B8G8R8G8_422_UNORM
  | 70 => .VK_FORMAT_BC1_RGBA_UNORM_BLOCK
  | 71 => .VK_FORMAT_BC1_RGBA_UNORM_BLOCK
  | 72 => .VK_FORMAT_BC1_RGBA_SRGB_BLOCK
  | 73 => .VK_FORMAT_BC2_UNORM_BLOCK
  | 74 => .VK_FORMAT_BC2_UNORM_BLOCK
  | 75 => .VK_FORMAT_BC2_SRGB_BLOCK
  | 76 => .VK_FORMAT_BC3_UNORM_BLOCK
  | 77 => .VK_FORMAT_BC3_UNORM_BLOCK
  | 78 => .VK_FORMAT_BC3_SRGB_BLOCK
  | 79 => .VK_FORMAT_BC4_UNORM_BLOCK
  | 80 => .VK_FORMAT_BC4_UNORM_BLOCK
  | 81 => .VK_FORMAT_BC4_SNORM_BLOCK
  | 82 => .VK_FORMAT_BC5_UNORM_BLOCK
  | 83 => .VK_FORMAT_BC5_UNORM_BLOCK
  | 84 => .VK_FORMAT_BC5_SNORM_BLOCK
  | 85 => .VK_FORMAT_R5G6B5_UNORM_PACK16
  | 86 => .VK_FORMAT_A1R5G5B5_UNORM_PACK16
  | 87 => .VK_FORMAT_B8G8R8A8_UNORM
  | 88 => .VK_FORMAT_UNDEFINED
  | 89 => .VK_FORMAT_UNDEFINED
  | 90 => .VK_FORMAT_B8G8R8A8_UNORM
  | 91 => .VK_FORMAT_B8G8R8A8_SRGB
  | 92 => .VK_FORMAT_UNDEFINED
  | 93 => .VK_FORMAT_UNDEFINED
  | 94 => .VK_FORMAT_BC6H_UFLOAT_BLOCK
  | 95 => .VK_FORMAT_BC6H_UFLOAT_BLOCK
  | 96 => .VK_FORMAT_BC6H_SFLOAT_BLOCK
  | 97 => .VK_FORMAT_BC7_UNORM_BLOCK
  | 98 => .VK_FORMAT_BC7_UNORM_BLOCK
  | 99 => .VK_FORMAT_BC7_SRGB_BLOCK
  | 100 => .VK_FORMAT_R8G8B8A8_UNORM
  | 101 => .VK_FORMAT_A2B10G10R10_UNORM_PACK32
  | 102 => .VK_FORMAT_R16G16B16A16_UNORM
  | 103 => .VK_FORMAT_G8_B8R8_2PLANE_420_UNORM
  | 104 => .VK_FORMAT_G10X6_B10X6R10X6_2PLANE_420_UNORM_3PACK16
  | 105 => .VK_FORMAT_G16_B16R16_2PLANE_420_UNORM
  | 106 => .VK_FORMAT_G8_B8R8_2PLANE_420_UNORM
  | 107 => .VK_FORMAT_G8B8G8R8_422_UNORM
  | 108 => .VK_FORMAT_G10X6B10X6G10X6R10X6_422_UNORM_4PACK16
  | 109 => .VK_FORMAT_G16B16G16R16_422_UNORM
  | 110 => .VK_FORMAT_UNDEFINED
  | 111 => .VK_FORMAT_UNDEFINED
  | 112 => .VK_FORMAT_UNDEFINED
  | 113 => .VK_FORMAT_UNDEFINED
  | 114 => .VK_FORMAT_UNDEFINED
  | 115 => .VK_FORMAT_A4R4G4B4_UNORM_PACK16_EXT
  | 130 => .VK_FORMAT_G8_B8R8_2PLANE_422_UNORM
  | 131 => .VK_FORMAT_UNDEFINED
  | 132 => .VK_FORMAT_R8G8B8A8_UNORM
  | _ => .VK_FORMAT_UNDEFINED

/-- Translation of the `MAKEFOURCC` macro (source lines 40-44). -/
def makeFourCC (ch0 ch1 ch2 ch3 : Nat) : Nat :=
  ch0 ||| (ch1 <<< 8) ||| (ch2 <<< 16) ||| (ch3 <<< 24)

/-- Translation of `IsTypelessFormat` (source lines 348-375): whether a DXGI
format code belongs to the `_TYPELESS` family. -/
def isTypelessFormat (dxgiFormat : Nat) : Bool :=
  dxgiFormat == 1 || dxgiFormat == 5 || dxgiFormat == 9 || dxgiFormat == 15 ||
  dxgiFormat == 19 || dxgiFormat == 21 || dxgiFormat == 23 || dxgiFormat == 27 ||
  dxgiFormat == 33 || dxgiFormat == 39 || dxgiFormat == 44 || dxgiFormat == 46 ||
  dxgiFormat == 47 || dxgiFormat == 48 || dxgiFormat == 53 || dxgiFormat == 60 ||
  dxgiFormat == 70 || dxgiFormat == 73 || dxgiFormat == 76 || dxgiFormat == 79 ||
  dxgiFormat == 82 || dxgiFormat == 90 || dxgiFormat == 92 || dxgiFormat == 94 ||
  dxgiFormat == 97

/-- Translation of `D3DResourceDimensionToImageType` (source lines 380-396). -/
def d3dResourceDimensionToImageType (resDim : Nat) : VkImageType :=
  match resDim with
  | 2 => .VK_IMAGE_TYPE_1D
  | 3 => .VK_IMAGE_TYPE_2D
  | 4 => .VK_IMAGE_TYPE_3D
  | _ => .VK_IMAGE_TYPE_MAX_ENUM

/-- Translation of `DDS_PIXELFORMAT` (source lines 55-65); all fields `uint32_t`. -/
structure DDS_PIXELFORMAT where
  size : Nat
  flags : Nat
  fourCC : Nat
  RGBBitCount : Nat
  RBitMask : Nat
  GBitMask : Nat
  BBitMask : Nat
  ABitMask : Nat
  deriving DecidableEq, Repr

/-- Translation of `DDS_HEADER` (source lines 98-114); the unused `reserved`
words are omitted (no loader code reads them). -/
structure DDS_HEADER where
  size : Nat
  flags : Nat
  height : Nat
  width : Nat
  pitchOrLinearSize : Nat
  depth : Nat
  mipMapCount : Nat
  ddspf : DDS_PIXELFORMAT
  caps : Nat
  caps2 : Nat
  caps3 : Nat
  caps4 : Nat
  deriving DecidableEq, Repr

/-- Translation of `DDS_HEADER_DXT10` (source lines 116-123). -/
structure DDS_HEADER_DXT10 where
  dxgiFormat : Nat
  resourceDimension : Nat
  miscFlag : Nat
  arraySize : Nat
  miscFlags2 : Nat
  deriving DecidableEq, Repr

/-- The five `VkPhysicalDeviceLimits` fields the loader reads
(source lines 2861-2868). -/
structure VkPhysicalDeviceLimits where
  maxImageArrayLayers : Nat
  maxImageDimension1D : Nat
  maxImageDimension2D : Nat
  maxImageDimension3D : Nat
  maxImageDimensionCube : Nat
  deriving DecidableEq, Repr

/-- Translation of `LoadedSubresourceData` as written by `FillInitData`
(source lines 2690-2698): `PData` becomes a byte offset into the payload,
`SubresourceSlice` and `Extent` are flattened into their fields. -/
structure LoadedSubresourceData where
  pData : Nat
  dataByteSize : Nat
  aspectMask : VkImageAspect
  arrayLayer : Nat
  mipLevel : Nat
  width : Nat
  height : Nat
  depth : Nat
  deriving DecidableEq, Repr

/-- The three out-parameters of `GetSurfaceInfo`. -/
structure SurfaceInfo where
  numBytes : Nat
  rowBytes : Nat
  numRows : Nat
  deriving DecidableEq, Repr

/-- The final `else` branch of `GetSurfaceInfo` (source lines 2158-2167): an
ordinary format; fails with `DDS_LOADER_INVALID_ARG` when the bits-per-pixel
lookup returns zero. -/
def surfaceInfoOrdinary (width height : Nat) (fmt : VkFormat) :
    Except DDS_LOADER_RESULT SurfaceInfo :=
  let bpp := bitsPerPixel fmt
  if bpp = 0 then .error .DDS_LOADER_INVALID_ARG
  else
    let rowBytes := (width * bpp + 7) / 8
    .ok { numBytes := rowBytes * height, rowBytes := rowBytes, numRows := height }

/-- Translation of `GetSurfaceInfo` (source lines 1542-2191) on a 64-bit
platform (the 32-bit `DDS_LOADER_ARITHMETIC_OVERFLOW` check is compiled out).
The layout-family switch is factored into `surfaceClassify`. -/
def getSurfaceInfo (width height : Nat) (fmt : VkFormat)
    (aspectPlane : VkImageAspect) : Except DDS_LOADER_RESULT SurfaceInfo :=
  match surfaceClassify fmt with
  | .block blockWidth blockHeight bytesPerBlock =>
    let numBlocksWide := if 0 < width then max 1 ((width + (blockWidth - 1)) / blockWidth) else 0
    let numBlocksHigh := if 0 < height then max 1 ((height + (blockHeight - 1)) / blockHeight) else 0
    .ok { numBytes := numBlocksWide * bytesPerBlock * numBlocksHigh,
          rowBytes := numBlocksWide * bytesPerBlock,
          numRows := numBlocksHigh }
  | .packed blockWidth blockHeight bytesPerBlock =>
    if blockWidth = 2 ∧ blockHeight = 1 then
      let rowBytes := ((width + 1) >>> 1) * bytesPerBlock
      .ok { numBytes := rowBytes * height, rowBytes := rowBytes, numRows := height }
    else surfaceInfoOrdinary width height fmt
  | .plane2 blockWidth blockHeight bytesPerBlock =>
    if aspectPlane = .VK_IMAGE_ASPECT_PLANE_0_BIT then
      let rowBytes := width * bytesPerBlock / (blockWidth * blockHeight + 2)
      .ok { numBytes := rowBytes * height, rowBytes := rowBytes, numRows := height }
    else
      let bytesPerElement := bytesPerBlock / (blockWidth * blockHeight + 2)
      let rowBytes := ((width + blockWidth - 1) / blockWidth) * bytesPerElement * 2
      let numRows := (height + blockHeight - 1) / blockHeight
      .ok { numBytes := rowBytes * numRows, rowBytes := rowBytes, numRows := numRows }
  | .plane3 blockWidth blockHeight bytesPerBlock =>
    if aspectPlane = .VK_IMAGE_ASPECT_PLANE_0_BIT then
      let rowBytes := width * bytesPerBlock / (blockWidth * blockHeight + 2)
      .ok { numBytes := rowBytes * height, rowBytes := rowBytes, numRows := height }
    else
      let bytesPerElement := bytesPerBlock / (blockWidth * blockHeight + 2)
      let rowBytes := ((width + blockWidth - 1) / blockWidth) * bytesPerElement
      let numRows := (height + blockHeight - 1) / blockHeight
      .ok { numBytes := rowBytes * numRows, rowBytes := rowBytes, numRows := numRows }
  | .ordinary => surfaceInfoOrdinary width height fmt

/-- Translation of the `ISBITMASK` macro (source line 2194). -/
def isBitmask (ddpf : DDS_PIXELFORMAT) (r g b a : Nat) : Bool :=
  ddpf.RBitMask == r && ddpf.GBitMask == g && ddpf.BBitMask == b && ddpf.ABitMask == a

/-- Translation of `GetVkFormat` (source lines 2196-2462): the legacy bitmask
pixel-format to Vulkan format mapper. Flag constants: `DDS_RGB = 0x40`,
`DDS_LUMINANCE = 0x20000`, `DDS_BUMPDUDV = 0x80000`, `DDS_FOURCC = 0x4`. -/
def getVkFormat (ddpf : DDS_PIXELFORMAT) : VkFormat :=
  if ddpf.flags &&& 0x40 ≠ 0 then
    match ddpf.RGBBitCount with
    | 32 =>
      if isBitmask ddpf 0x000000ff 0x0000ff00 0x00ff0000 0xff000000 then .VK_FORMAT_R8G8B8A8_UNORM
      else if isBitmask ddpf 0x00ff0000 0x0000ff00 0x000000ff 0xff000000 then .VK_FORMAT_B8G8R8A8_UNORM
      else if isBitmask ddpf 0x00ff0000 0x0000ff00 0x000000ff 0 then .VK_FORMAT_UNDEFINED
      else if isBitmask ddpf 0x3ff00000 0x000ffc00 0x000003ff 0xc0000000 then .VK_FORMAT_A2B10G10R10_UNORM_PACK32
      else if isBitmask ddpf 0x000003ff 0x000ffc00 0x3ff00000 0xc0000000 then .VK_FORMAT_A2R10G10B10_UNORM_PACK32
      else if isBitmask ddpf 0x0000ffff 0xffff0000 0 0 then .VK_FORMAT_R16G16_UNORM
      else if isBitmask ddpf 0xffffffff 0 0 0 then .VK_FORMAT_R32_SFLOAT
      else .VK_FORMAT_UNDEFINED
    | 24 =>
      if isBitmask ddpf 0xff0000 0x00ff00 0x0000ff 0 then .VK_FORMAT_R8G8B8_UNORM
      else .VK_FORMAT_UNDEFINED
    | 16 =>
      if isBitmask ddpf 0x7c00 0x03e0 0x001f 0x8000 then .VK_FORMAT_A1R5G5B5_UNORM_PACK16
      else if isBitmask ddpf 0xf800 0x07e0 0x001f 0 then .VK_FORMAT_R5G6B5_UNORM_PACK16
      else if isBitmask ddpf 0x0f00 0x00f0 0x000f 0xf000 then .VK_FORMAT_A4R4G4B4_UNORM_PACK16_EXT
      else .VK_FORMAT_UNDEFINED
    | _ => .VK_FORMAT_UNDEFINED
  else if ddpf.flags &&& 0x20000 ≠ 0 then
    if ddpf.RGBBitCount = 8 ∧ isBitmask ddpf 0xff 0 0 0 then .VK_FORMAT_R8_UNORM
    else if ddpf.RGBBitCount = 8 ∧ isBitmask ddpf 0x0f 0 0 0xf0 then .VK_FORMAT_R4G4_UNORM_PACK8
    else if ddpf.RGBBitCount = 8 ∧ isBitmask ddpf 0x00ff 0 0 0xff00 then .VK_FORMAT_R8G8_UNORM
    else if ddpf.RGBBitCount = 16 ∧ isBitmask ddpf 0xffff 0 0 0 then .VK_FORMAT_R16_UNORM
    else if ddpf.RGBBitCount = 16 ∧ isBitmask ddpf 0x00ff 0 0 0xff00 then .VK_FORMAT_R8G8_UNORM
    else .VK_FORMAT_UNDEFINED
  else if ddpf.flags &&& 0x80000 ≠ 0 then
    if ddpf.RGBBitCount = 16 ∧ isBitmask ddpf 0x00ff 0xff00 0 0 then .VK_FORMAT_R8G8_SNORM
    else if ddpf.RGBBitCount = 32 ∧ isBitmask ddpf 0x000000ff 0x0000ff00 0x00ff0000 0xff000000 then .VK_FORMAT_R8G8B8A8_SNORM
    else if ddpf.RGBBitCount = 32 ∧ isBitmask ddpf 0x0000ffff 0xffff0000 0 0 then .VK_FORMAT_R16G16_SNORM
    else if ddpf.RGBBitCount = 32 ∧ isBitmask ddpf 0x3ff00000 0x000ffc00 0x000003ff 0xc0000000 then .VK_FORMAT_A2B10G10R10_SNORM_PACK32
    else .VK_FORMAT_UNDEFINED
  else if ddpf.flags &&& 0x4 ≠ 0 then
    if ddpf.fourCC = makeFourCC 0x44 0x58 0x54 0x31 then .VK_FORMAT_BC1_RGBA_UNORM_BLOCK
    else if ddpf.fourCC = makeFourCC 0x44 0x58 0x54 0x33 then .VK_FORMAT_BC2_UNORM_BLOCK
    else if ddpf.fourCC = makeFourCC 0x44 0x58 0x54 0x35 then .VK_FORMAT_BC3_UNORM_BLOCK
    else if ddpf.fourCC = makeFourCC 0x44 0x58 0x54 0x32 then .VK_FORMAT_BC2_UNORM_BLOCK
    else if ddpf.fourCC = makeFourCC 0x44 0x58 0x54 0x34 then .VK_FORMAT_BC3_UNORM_BLOCK
    else if ddpf.fourCC = makeFourCC 0x41 0x54 0x49 0x31 then .VK_FORMAT_BC4_UNORM_BLOCK
    else if ddpf.fourCC = makeFourCC 0x42 0x43 0x34 0x55 then .VK_FORMAT_BC4_UNORM_BLOCK
    else if ddpf.fourCC = makeFourCC 0x42 0x43 0x34 0x53 then .VK_FORMAT_BC4_SNORM_BLOCK
    else if ddpf.fourCC = makeFourCC 0x41 0x54 0x49 0x32 then .VK_FORMAT_BC5_UNORM_BLOCK
    else if ddpf.fourCC = makeFourCC 0x42 0x43 0x35 0x55 then .VK_FORMAT_BC5_UNORM_BLOCK
    else if ddpf.fourCC = makeFourCC 0x42 0x43 0x35 0x53 then .VK_FORMAT_BC5_SNORM_BLOCK
    else if ddpf.fourCC = makeFourCC 0x52 0x47 0x42 0x47 then .VK_FORMAT_G8B8G8R8_422_UNORM
    else if ddpf.fourCC = makeFourCC 0x47 0x52 0x47 0x42 then .VK_FORMAT_B8G8R8G8_422_UNORM
    else if ddpf.fourCC = makeFourCC 0x55 0x59 0x56 0x59 then .VK_FORMAT_G8B8G8R8_422_UNORM
    else if ddpf.fourCC = makeFourCC 0x59 0x55 0x59 0x32 then .VK_FORMAT_B8G8R8G8_422_UNORM
    else
      match ddpf.fourCC with
      | 36 => .VK_FORMAT_R16G16B16A16_UNORM
      | 110 => .VK_FORMAT_R16G16B16A16_SNORM
      | 111 => .VK_FORMAT_R16_SFLOAT
      | 112 => .VK_FORMAT_R16G16_SFLOAT
      | 113 => .VK_FORMAT_R16G16B16A16_SFLOAT
      | 114 => .VK_FORMAT_R32_SFLOAT
      | 115 => .VK_FORMAT_R32G32_SFLOAT
      | 116 => .VK_FORMAT_R32G32B32A32_SFLOAT
      | _ => .VK_FORMAT_UNDEFINED
  else .VK_FORMAT_UNDEFINED

/-- The `while` loop of `CountMips` (source lines 174-180): `count` starts at 1
and both dimensions are halved until neither exceeds 1. -/
def countMipsLoop (width height count : Nat) : Nat :=
  if 1 < width ∨ 1 < height then
    countMipsLoop (width >>> 1) (height >>> 1) (count + 1)
  else count
termination_by width + height
decreasing_by
  simp only [Nat.shiftRight_one]
  rename_i h
  rcases h with h | h
  · have := Nat.div_lt_self (by omega : 0 < width) (by omega : 1 < 2)
    have := Nat.div_le_self height 2
    omega
  · have := Nat.div_lt_self (by omega : 0 < height) (by omega : 1 < 2)
    have := Nat.div_le_self width 2
    omega

/-- Translation of `CountMips` (source lines 169-182). -/
def countMips (width height : Nat) : Nat :=
  if width = 0 ∨ height = 0 then 0
  else countMipsLoop width height 1

/-- Mutable state threaded through the `FillInitData` loops: the four
by-reference out-parameters `twidth`/`theight`/`tdepth`/`skipMip` and the
`initData` vector (source lines 2609-2613). -/
structure FillState where
  twidth : Nat
  theight : Nat
  tdepth : Nat
  skipMip : Nat
  initData : List LoadedSubresourceData
  deriving DecidableEq, Repr

/-- The aspect-plane selection at the top of the plane loop of `FillInitData`
(source lines 2631-2656). -/
def fillAspectPlane (numberOfPlanes : Nat) (format : VkFormat) (p : Nat) :
    VkImageAspect :=
  if numberOfPlanes = 1 ∧ ¬ isDepthStencil format then .VK_IMAGE_ASPECT_COLOR_BIT
  else if numberOfPlanes = 1 then .VK_IMAGE_ASPECT_DEPTH_AND_STENCIL_BITS
  else if p = 0 then .VK_IMAGE_ASPECT_PLANE_0_BIT
  else if p = 1 then .VK_IMAGE_ASPECT_PLANE_1_BIT
  else if p = 2 then .VK_IMAGE_ASPECT_PLANE_2_BIT
  else .VK_IMAGE_ASPECT_FLAG_BITS_MAX_ENUM

/-- One halving step of the mip walk (source lines 2715-2729): shift right by
one, then clamp zero to one. -/
def nextDim (x : Nat) : Nat :=
  if x >>> 1 = 0 then 1 else x >>> 1

/-- The extent of mip level `i` in a chain that starts from `x`, by iterating
`nextDim`. -/
def mipDim (x : Nat) : Nat → Nat
  | 0 => x
  | i + 1 => nextDim (mipDim x i)

/-- The state update of one mip-loop iteration of `FillInitData` (source lines
2681-2706): when the mip is kept (single-mip chain, uncapped request, or all
dimensions within the cap) the first kept extent is recorded and a descriptor
is appended; otherwise the skip counter is bumped on the first array slice
only. -/
def fillMipStore (aspectPlane : VkImageAspect)
    (mipCount maxsize j i w h d srcOff dataSize : Nat) (st : FillState) :
    FillState :=
  if mipCount ≤ 1 ∨ maxsize = 0 ∨ (w ≤ maxsize ∧ h ≤ maxsize ∧ d ≤ maxsize) then
    let st₁ := if st.twidth = 0 then
      { st with twidth := w, theight := h, tdepth := d } else st
    { st₁ with initData := st₁.initData ++
        [{ pData := srcOff, dataByteSize := dataSize, aspectMask := aspectPlane,
           arrayLayer := j, mipLevel := i, width := w, height := h, depth := d }] }
  else if j = 0 then { st with skipMip := st.skipMip + 1 }
  else st

/-- The innermost mip loop of `FillInitData` (source lines 2666-2730).
`n` counts the remaining iterations, `i` is the loop counter, `j` the array
slice, `srcOff` the offset of `pSrcBits` from `bitData`, and `bitSize` the
offset of `pEndBits`. Returns an early-exit result (if any), the final source
offset, and the updated state; on early exit the state already contains
whatever the loop body stored before the failing check, as in the source. -/
def fillMips (format : VkFormat) (aspectPlane : VkImageAspect)
    (mipCount maxsize bitSize j : Nat) :
    Nat → Nat → Nat → Nat → Nat → Nat → FillState →
    Option DDS_LOADER_RESULT × Nat × FillState
  | 0, _, _, _, _, srcOff, st => (none, srcOff, st)
  | n + 1, i, w, h, d, srcOff, st =>
    match getSurfaceInfo w h format aspectPlane with
    | .error e => (some e, srcOff, st)
    | .ok surf =>
      if 4294967295 < surf.numBytes then
        (some .DDS_LOADER_ARITHMETIC_OVERFLOW, srcOff, st)
      else
        let st' := fillMipStore aspectPlane mipCount maxsize j i w h d srcOff
          (surf.numBytes * d) st
        if bitSize < srcOff + surf.numBytes * d then
          (some .DDS_LOADER_UNEXPECTED_EOF, srcOff, st')
        else
          fillMips format aspectPlane mipCount maxsize bitSize j
            n (i + 1) (nextDim w) (nextDim h) (nextDim d)
            (srcOff + surf.numBytes * d) st'

/-- The array-slice loop of `FillInitData` (source lines 2660-2731): each
slice restarts the extent at the full resolution while the source offset keeps
advancing. -/
def fillSlices (format : VkFormat) (aspectPlane : VkImageAspect)
    (mipCount maxsize bitSize width height depth : Nat) :
    Nat → Nat → Nat → FillState → Option DDS_LOADER_RESULT × Nat × FillState
  | 0, _, srcOff, st => (none, srcOff, st)
  | jn + 1, j, srcOff, st =>
    match fillMips format aspectPlane mipCount maxsize bitSize j
        mipCount 0 width height depth srcOff st with
    | (some e, off, st') => (some e, off, st')
    | (none, off, st') =>
      fillSlices format aspectPlane mipCount maxsize bitSize width height depth
        jn (j + 1) off st'

/-- The plane loop of `FillInitData` (source lines 2631-2732): each plane
restarts `pSrcBits` at `bitData` (offset 0). -/
def fillPlanes (format : VkFormat)
    (mipCount maxsize bitSize width height depth arraySize numberOfPlanes : Nat) :
    Nat → Nat → FillState → Option DDS_LOADER_RESULT × FillState
  | 0, _, st => (none, st)
  | pn + 1, p, st =>
    let aspectPlane := fillAspectPlane numberOfPlanes format p
    match fillSlices format aspectPlane mipCount maxsize bitSize width height depth
        arraySize 0 0 st with
    | (some e, _, st') => (some e, st')
    | (none, _, st') =>
      fillPlanes format mipCount maxsize bitSize width height depth arraySize
        numberOfPlanes pn (p + 1) st'

/-- Result record of `FillInitData`: the returned code plus the five
by-reference out-parameters. -/
structure FillResult where
  res : DDS_LOADER_RESULT
  twidth : Nat
  theight : Nat
  tdepth : Nat
  skipMip : Nat
  initData : List LoadedSubresourceData
  deriving DecidableEq, Repr

/-- Translation of `FillInitData` (source lines 2599-2735). `bitDataNull`
models a null `bitData` pointer (rejected before `initData` is cleared, so the
caller-supplied `initData0` is returned unchanged in that case; the source
also leaves the numeric out-parameters untouched there, and every caller has
just zero-initialised them). On the non-null path the state starts from the
cleared vector and zeroed out-parameters, and the final result is
`DDS_LOADER_FAIL` when no descriptor was kept. -/
def fillInitData (bitDataNull : Bool)
    (width height depth mipCount arraySize numberOfPlanes : Nat)
    (format : VkFormat) (maxsize bitSize : Nat)
    (initData0 : List LoadedSubresourceData) : FillResult :=
  if bitDataNull then
    { res := .DDS_LOADER_BAD_POINTER, twidth := 0, theight := 0, tdepth := 0,
      skipMip := 0, initData := initData0 }
  else
    match fillPlanes format mipCount maxsize bitSize width height depth arraySize
        numberOfPlanes numberOfPlanes 0
        { twidth := 0, theight := 0, tdepth := 0, skipMip := 0, initData := [] } with
    | (some e, st) =>
      { res := e, twidth := st.twidth, theight := st.theight, tdepth := st.tdepth,
        skipMip := st.skipMip, initData := st.initData }
    | (none, st) =>
      { res := if st.initData.isEmpty then .DDS_LOADER_FAIL else .DDS_LOADER_SUCCESS,
        twidth := st.twidth, theight := st.theight, tdepth := st.tdepth,
        skipMip := st.skipMip, initData := st.initData }

/-- Translation of `CreateTextureResource` (source lines 2739-2822). The
geometry arguments only populate the `VkImageCreateInfo` out-structure (not
modeled); the returned code depends on the device handle, the injected
`vkCreateImage` pointer (modeled as `Option (Nat → VkResult)` applied to a
call index) and the `VkResult` it returns. `result` starts as
`DDS_LOADER_FAIL`, so any unexpected `VkResult` maps to it.
`DDS_LOADER_FORCE_SRGB = 0x1` only remaps the format written into the
creation request. -/
def createTextureResource (deviceNull : Bool) (_imgType : VkImageType)
    (_width _height _depth _mipCount _arraySize : Nat) (format : VkFormat)
    (_createFlags loadFlags : Nat) (createImageFn : Option (Nat → VkResult))
    (callIdx : Nat) : DDS_LOADER_RESULT :=
  if deviceNull then .DDS_LOADER_BAD_POINTER
  else
    let _format := if loadFlags &&& 0x1 ≠ 0 then makeSRGB format else format
    match createImageFn with
    | none => .DDS_LOADER_NO_FUNCTION
    | some f =>
      match f callIdx with
      | .VK_SUCCESS => .DDS_LOADER_SUCCESS
      | .VK_ERROR_OUT_OF_HOST_MEMORY => .DDS_LOADER_NO_HOST_MEMORY
      | .VK_ERROR_OUT_OF_DEVICE_MEMORY => .DDS_LOADER_NO_DEVICE_MEMORY
      | .VK_OTHER_RESULT => .DDS_LOADER_FAIL

/-- The parameters `CreateTextureFromDDS` has resolved once all header
validation (source lines 2839-3036) has passed. -/
structure ResolvedParams where
  width : Nat
  height : Nat
  depth : Nat
  mipCount : Nat
  arraySize : Nat
  imgType : VkImageType
  format : VkFormat
  imageCreateFlags : Nat
  numberOfPlanes : Nat
  deriving DecidableEq, Repr

/-- The tail of the validation in `CreateTextureFromDDS` (source lines
2975-3036): the defensive mip ceiling of 15, the per-dimensionality device
limit checks (`VK_IMAGE_CREATE_CUBE_COMPATIBLE_BIT = 0x10`), and the plane
count checks. -/
def checkLimitsAndPlanes (p : ResolvedParams)
    (maxImageArrayLayers maxImageDimension1D maxImageDimension2D
     maxImageDimension3D maxImageDimensionCube : Nat) :
    Except DDS_LOADER_RESULT ResolvedParams :=
  if 15 < p.mipCount then .error .DDS_LOADER_UNSUPPORTED_LAYOUT
  else
    let limErr : Option DDS_LOADER_RESULT :=
      match p.imgType with
      | .VK_IMAGE_TYPE_1D =>
        if maxImageArrayLayers < p.arraySize ∨ maxImageDimension1D < p.width then
          some .DDS_LOADER_BELOW_LIMITS
        else none
      | .VK_IMAGE_TYPE_2D =>
        if p.imageCreateFlags &&& 0x10 ≠ 0 then
          if maxImageArrayLayers < p.arraySize ∨ maxImageDimensionCube < p.width ∨
              maxImageDimensionCube < p.height then
            some .DDS_LOADER_BELOW_LIMITS
          else none
        else if maxImageArrayLayers < p.arraySize ∨ maxImageDimension2D < p.width ∨
            maxImageDimension2D < p.height then
          some .DDS_LOADER_BELOW_LIMITS
        else none
      | .VK_IMAGE_TYPE_3D =>
        if 1 < p.arraySize ∨ maxImageDimension3D < p.width ∨
            maxImageDimension3D < p.height ∨ maxImageDimension3D < p.depth then
          some .DDS_LOADER_BELOW_LIMITS
        else none
      | .VK_IMAGE_TYPE_MAX_ENUM => some .DDS_LOADER_UNSUPPORTED_LAYOUT
    match limErr with
    | some e => .error e
    | none =>
      let numberOfPlanes := getVkFormatPlaneCount p.format
      if numberOfPlanes = 0 then .error .DDS_LOADER_UNSUPPORTED_FORMAT
      else if 1 < numberOfPlanes ∧ isDepthStencil p.format then
        .error .DDS_LOADER_UNSUPPORTED_FORMAT
      else .ok { p with numberOfPlanes := numberOfPlanes }

/-- The header-validation and format-resolution prefix of
`CreateTextureFromDDS` (source lines 2839-3036), up to but not including
`FillInitData`. Flag constants: `DDS_FOURCC = 0x4`, the DX10 sentinel fourCC,
`VK_IMAGE_CREATE_MUTABLE_FORMAT_BIT = 0x8`,
`VK_IMAGE_CREATE_CUBE_COMPATIBLE_BIT = 0x10`,
`VK_IMAGE_CREATE_2D_ARRAY_COMPATIBLE_BIT = 0x20`, `DDS_HEIGHT = 0x2`,
`DDS_HEADER_FLAGS_VOLUME = 0x800000`, `DDS_CUBEMAP = 0x200`,
`DDS_CUBEMAP_ALLFACES = 0xFE00`, `RESOURCE_MISC_TEXTURECUBE = 0x4`. -/
def validateDDSHeader (header : DDS_HEADER) (d3d10ext : DDS_HEADER_DXT10)
    (createFlags : Nat)
    (maxImageArrayLayers maxImageDimension1D maxImageDimension2D
     maxImageDimension3D maxImageDimensionCube : Nat) :
    Except DDS_LOADER_RESULT ResolvedParams :=
  let width := header.width
  let height := header.height
  let depth := header.depth
  let mipCount := if header.mipMapCount = 0 then 1 else header.mipMapCount
  if header.ddspf.flags &&& 0x4 ≠ 0 ∧ header.ddspf.fourCC = makeFourCC 0x44 0x58 0x31 0x30 then
    let arraySize := d3d10ext.arraySize
    if arraySize = 0 then .error .DDS_LOADER_INVALID_DATA
    else
      let imageCreateFlags :=
        if isTypelessFormat d3d10ext.dxgiFormat then createFlags ||| 0x8 else createFlags
      let format := dxgiToVkFormat d3d10ext.dxgiFormat
      if bitsPerPixel format = 0 then .error .DDS_LOADER_UNSUPPORTED_FORMAT
      else
        match d3dResourceDimensionToImageType d3d10ext.resourceDimension with
        | .VK_IMAGE_TYPE_1D =>
          if header.flags &&& 0x2 ≠ 0 ∧ height ≠ 1 then .error .DDS_LOADER_INVALID_DATA
          else
            checkLimitsAndPlanes
              { width := width, height := 1, depth := 1, mipCount := mipCount,
                arraySize := arraySize, imgType := .VK_IMAGE_TYPE_1D, format := format,
                imageCreateFlags := imageCreateFlags, numberOfPlanes := 0 }
              maxImageArrayLayers maxImageDimension1D maxImageDimension2D
              maxImageDimension3D maxImageDimensionCube
        | .VK_IMAGE_TYPE_2D =>
          let fa :=
            if d3d10ext.miscFlag &&& 0x4 ≠ 0 then
              (imageCreateFlags ||| 0x10, arraySize * 6)
            else (imageCreateFlags, arraySize)
          let flags2 := if 1 < fa.2 then fa.1 ||| 0x20 else fa.1
          checkLimitsAndPlanes
            { width := width, height := height, depth := 1, mipCount := mipCount,
              arraySize := fa.2, imgType := .VK_IMAGE_TYPE_2D, format := format,
              imageCreateFlags := flags2, numberOfPlanes := 0 }
            maxImageArrayLayers maxImageDimension1D maxImageDimension2D
            maxImageDimension3D maxImageDimensionCube
        | .VK_IMAGE_TYPE_3D =>
          if header.flags &&& 0x800000 = 0 then .error .DDS_LOADER_INVALID_DATA
          else if 1 < arraySize then .error .DDS_LOADER_UNSUPPORTED_LAYOUT
          else
            checkLimitsAndPlanes
              { width := width, height := height, depth := depth, mipCount := mipCount,
                arraySize := arraySize, imgType := .VK_IMAGE_TYPE_3D, format := format,
                imageCreateFlags := imageCreateFlags, numberOfPlanes := 0 }
              maxImageArrayLayers maxImageDimension1D maxImageDimension2D
              maxImageDimension3D maxImageDimensionCube
        | .VK_IMAGE_TYPE_MAX_ENUM => .error .DDS_LOADER_UNSUPPORTED_LAYOUT
  else
    let format := getVkFormat header.ddspf
    if format = .VK_FORMAT_UNDEFINED then .error .DDS_LOADER_UNSUPPORTED_FORMAT
    else if header.flags &&& 0x800000 ≠ 0 then
      checkLimitsAndPlanes
        { width := width, height := height, depth := depth, mipCount := mipCount,
          arraySize := 1, imgType := .VK_IMAGE_TYPE_3D, format := format,
          imageCreateFlags := createFlags, numberOfPlanes := 0 }
        maxImageArrayLayers maxImageDimension1D maxImageDimension2D
        maxImageDimension3D maxImageDimensionCube
    else if header.caps2 &&& 0x200 ≠ 0 then
      if header.caps2 &&& 0xFE00 ≠ 0xFE00 then .error .DDS_LOADER_UNSUPPORTED_LAYOUT
      else
        checkLimitsAndPlanes
          { width := width, height := height, depth := 1, mipCount := mipCount,
            arraySize := 6, imgType := .VK_IMAGE_TYPE_2D, format := format,
            imageCreateFlags := createFlags ||| 0x10, numberOfPlanes := 0 }
          maxImageArrayLayers maxImageDimension1D maxImageDimension2D
          maxImageDimension3D maxImageDimensionCube
    else
      checkLimitsAndPlanes
        { width := width, height := height, depth := 1, mipCount := mipCount,
          arraySize := 1, imgType := .VK_IMAGE_TYPE_2D, format := format,
          imageCreateFlags := createFlags, numberOfPlanes := 0 }
        maxImageArrayLayers maxImageDimension1D maxImageDimension2D
        maxImageDimension3D maxImageDimensionCube

/-- Observable outcome of `CreateTextureFromDDS`: the result code, the final
content of the caller's `subresources` vector, and two ghost trace fields:
how many times `CreateTextureResource` was invoked and, when the automatic
fallback retry re-ran `FillInitData`, the `maxsize` cap it used. -/
structure CreateOutcome where
  res : DDS_LOADER_RESULT
  subresources : List LoadedSubresourceData
  createCalls : Nat
  retryCap : Option Nat
  deriving DecidableEq, Repr

/-- The final failure cleanup of `CreateTextureFromDDS` (source lines
3089-3094): every path that reaches the enumeration stage clears the
subresource vector when the result is not `DDS_LOADER_SUCCESS`. -/
def finalizeOutcome (res : DDS_LOADER_RESULT)
    (subres : List LoadedSubresourceData) (createCalls : Nat)
    (retryCap : Option Nat) : CreateOutcome :=
  { res := res,
    subresources := if res = .DDS_LOADER_SUCCESS then subres else [],
    createCalls := createCalls, retryCap := retryCap }

/-- The enumeration-and-creation stage of `CreateTextureFromDDS` (source lines
3038-3094): `FillInitData`, one `CreateTextureResource` attempt, and the
single automatic fallback retry with a device-dimension cap when the first
attempt failed on an uncapped (`maxsize == 0`) multi-mip request.
`DDS_LOADER_MIP_RESERVE = 0x8`; the `subresources.reserve` call has no
observable effect on the vector's contents and is not modeled. The retry
clears the vector and `FillInitData` refills it from scratch ([]); the first
creation uses `reservedMips - skipMip` mip levels, the retry uses
`mipCount - skipMip` from the second enumeration, exactly as in the source. -/
def enumAndCreate (deviceNull : Bool) (p : ResolvedParams) (bitDataNull : Bool)
    (bitSize maxsize loadFlags : Nat) (createImageFn : Option (Nat → VkResult))
    (maxImageDimension2D maxImageDimension3D : Nat)
    (subres0 : List LoadedSubresourceData) : CreateOutcome :=
  let f1 := fillInitData bitDataNull p.width p.height p.depth p.mipCount p.arraySize
    p.numberOfPlanes p.format maxsize bitSize subres0
  if f1.res = .DDS_LOADER_SUCCESS then
    let reservedMips :=
      if loadFlags &&& 0x8 ≠ 0 then min 15 (countMips p.width p.height) else p.mipCount
    let c1 := createTextureResource deviceNull p.imgType f1.twidth f1.theight f1.tdepth
      (reservedMips - f1.skipMip) p.arraySize p.format p.imageCreateFlags loadFlags
      createImageFn 0
    if c1 ≠ .DDS_LOADER_SUCCESS ∧ maxsize = 0 ∧ 1 < p.mipCount then
      let cap := if p.imgType = .VK_IMAGE_TYPE_3D then maxImageDimension3D
                 else maxImageDimension2D
      let f2 := fillInitData bitDataNull p.width p.height p.depth p.mipCount p.arraySize
        p.numberOfPlanes p.format cap bitSize []
      if f2.res = .DDS_LOADER_SUCCESS then
        let c2 := createTextureResource deviceNull p.imgType f2.twidth f2.theight f2.tdepth
          (p.mipCount - f2.skipMip) p.arraySize p.format p.imageCreateFlags loadFlags
          createImageFn 1
        finalizeOutcome c2 f2.initData 2 (some cap)
      else finalizeOutcome f2.res f2.initData 1 (some cap)
    else finalizeOutcome c1 f1.initData 1 none
  else finalizeOutcome f1.res f1.initData 0 none

/-- The minimal guaranteed Vulkan limits used when the caller supplies no
`VkPhysicalDeviceLimits` (source lines 2855-2868). -/
def limitsOrDefault : Option VkPhysicalDeviceLimits → VkPhysicalDeviceLimits
  | none =>
    { maxImageArrayLayers := 256, maxImageDimension1D := 4096,
      maxImageDimension2D := 4096, maxImageDimension3D := 256,
      maxImageDimensionCube := 4096 }
  | some l => l

/-- Translation of `CreateTextureFromDDS` (source lines 2825-3095).
Early validation failures return with the caller's `subresources` untouched;
once validation passes, `enumAndCreate` takes over. -/
def createTextureFromDDS (deviceNull : Bool) (header : DDS_HEADER)
    (d3d10ext : DDS_HEADER_DXT10) (bitDataNull : Bool) (bitSize maxsize : Nat)
    (deviceLimits : Option VkPhysicalDeviceLimits) (createFlags loadFlags : Nat)
    (createImageFn : Option (Nat → VkResult))
    (subres0 : List LoadedSubresourceData) : CreateOutcome :=
  let L := limitsOrDefault deviceLimits
  match validateDDSHeader header d3d10ext createFlags L.maxImageArrayLayers
      L.maxImageDimension1D L.maxImageDimension2D L.maxImageDimension3D
      L.maxImageDimensionCube with
  | .error e =>
    { res := e, subresources := subres0, createCalls := 0, retryCap := none }
  | .ok p =>
    enumAndCreate deviceNull p bitDataNull bitSize maxsize loadFlags createImageFn
      L.maxImageDimension2D L.maxImageDimension3D subres0

/-- Little-endian 32-bit load from a byte buffer; the source's struct reads
are all in bounds thanks to the parser's length checks, so the default 0 is
never observable on the paths the parser accepts. -/
def readU32 (data : List Nat) (off : Nat) : Nat :=
  data.getD off 0 + 256 * data.getD (off + 1) 0 + 65536 * data.getD (off + 2) 0 +
    16777216 * data.getD (off + 3) 0

/-- Translation of `LoadTextureDataFromMemory` (source lines 186-249).
`outPtrNull` models `!header || !bitData || !bitSize`; the buffer is the byte
list (`ddsDataSize = ddsData.length`). On success returns the byte offset of
the payload (`4 + 124 (+ 20)`, i.e. magic + `DDS_HEADER` + optional
`DDS_HEADER_DXT10`) and the payload length. Struct offsets within the buffer:
`hdr.size` at 4, `hdr.ddspf.size` at 76, `hdr.ddspf.flags` at 80,
`hdr.ddspf.fourCC` at 84; `DDS_MAGIC = 0x20534444`, the DX10 sentinel fourCC
is `MAKEFOURCC('D','X','1','0') = 0x30315844`. -/
def loadTextureDataFromMemory (outPtrNull : Bool) (ddsData : List Nat) :
    Except DDS_LOADER_RESULT (Nat × Nat) :=
  if outPtrNull then .error .DDS_LOADER_BAD_POINTER
  else if 4294967295 < ddsData.length then .error .DDS_LOADER_FAIL
  else if ddsData.length < 4 + 124 then .error .DDS_LOADER_FAIL
  else if readU32 ddsData 0 ≠ 0x20534444 then .error .DDS_LOADER_FAIL
  else if readU32 ddsData 4 ≠ 124 ∨ readU32 ddsData 76 ≠ 32 then .error .DDS_LOADER_FAIL
  else
    let bDXT10Header :=
      readU32 ddsData 80 &&& 0x4 ≠ 0 ∧ readU32 ddsData 84 = makeFourCC 0x44 0x58 0x31 0x30
    if bDXT10Header ∧ ddsData.length < 4 + 124 + 20 then .error .DDS_LOADER_FAIL
    else
      let offset := 4 + 124 + if bDXT10Header then 20 else 0
      .ok (offset, ddsData.length - offset)

/-- The typed `DDS_HEADER` view the parser hands to `CreateTextureFromDDS`:
the `reinterpret_cast<const DDS_HEADER*>(ddsData + sizeof(uint32_t))` of
source line 217, field by field (the reserved words are skipped). -/
def parseDDSHeader (data : List Nat) : DDS_HEADER :=
  { size := readU32 data 4, flags := readU32 data 8, height := readU32 data 12,
    width := readU32 data 16, pitchOrLinearSize := readU32 data 20,
    depth := readU32 data 24, mipMapCount := readU32 data 28,
    ddspf :=
      { size := readU32 data 76, flags := readU32 data 80, fourCC := readU32 data 84,
        RGBBitCount := readU32 data 88, RBitMask := readU32 data 92,
        GBitMask := readU32 data 96, BBitMask := readU32 data 100,
        ABitMask := readU32 data 104 },
    caps := readU32 data 108, caps2 := readU32 data 112, caps3 := readU32 data 116,
    caps4 := readU32 data 120 }

/-- The `DDS_HEADER_DXT10` view at offset 128, the
`reinterpret_cast` of source line 2875; `CreateTextureFromDDS` only reads it
on the DX10 path, where the parser has checked the buffer is long enough. -/
def parseDDSHeaderDXT10 (data : List Nat) : DDS_HEADER_DXT10 :=
  { dxgiFormat := readU32 data 128, resourceDimension := readU32 data 132,
    miscFlag := readU32 data 136, arraySize := readU32 data 140,
    miscFlags2 := readU32 data 144 }

/-- Translation of `LoadDDSTextureFromMemoryEx` (source lines 3278-3343),
restricted to the outputs the claims are about: the result code and the final
content of the caller's `subresources` vector. The texture, alpha-mode and
image-create-info out-parameters are reset up front but `subresources` is not
touched before the argument checks, exactly as in the source. -/
def loadDDSTextureFromMemoryEx (deviceNull ddsDataNull texturePtrNull : Bool)
    (ddsData : List Nat) (maxsize : Nat)
    (deviceLimits : Option VkPhysicalDeviceLimits) (createFlags loadFlags : Nat)
    (createImageFn : Option (Nat → VkResult))
    (subresources : List LoadedSubresourceData) :
    DDS_LOADER_RESULT × List LoadedSubresourceData :=
  if deviceNull ∨ ddsDataNull ∨ texturePtrNull then
    (.DDS_LOADER_INVALID_ARG, subresources)
  else
    match loadTextureDataFromMemory false ddsData with
    | .error e => (e, subresources)
    | .ok (_offset, bitSize) =>
      let o := createTextureFromDDS false (parseDDSHeader ddsData)
        (parseDDSHeaderDXT10 ddsData) false bitSize maxsize deviceLimits
        createFlags loadFlags createImageFn subresources
      (o.res, o.subresources)

/-- The invariant relating a subresource descriptor to the full-resolution
extent of its walk: each extent component is the corresponding start dimension
halved (with clamp to 1) once per mip level. -/
def mipExtentP (width height depth : Nat) (x : LoadedSubresourceData) : Prop :=
  x.width = mipDim width x.mipLevel ∧ x.height = mipDim height x.mipLevel ∧
    x.depth = mipDim depth x.mipLevel

/-- Helper for the layout theorems: whenever `surfaceClassify` reports a
block-compressed format, its block dimensions and bytes-per-block are
positive. -/
def blockClassPositive (fmt : VkFormat) : Bool :=
  match surfaceClassify fmt with
  | .block blockWidth blockHeight bytesPerBlock =>
    0 < blockWidth && 0 < blockHeight && 0 < bytesPerBlock
  | _ => true

/-- Spec-side predicate, written from the claim's wording, not from the code:
the pure unsigned-integer (`_UINT`) view formats among the Vulkan formats the
modern mapper can return. -/
def isUintView (f : VkFormat) : Bool :=
  match f with
  | .VK_FORMAT_R32G32B32A32_UINT | .VK_FORMAT_R32G32B32_UINT
  | .VK_FORMAT_R16G16B16A16_UINT | .VK_FORMAT_R32G32_UINT
  | .VK_FORMAT_A2B10G10R10_UINT_PACK32 | .VK_FORMAT_R8G8B8A8_UINT
  | .VK_FORMAT_R16G16_UINT | .VK_FORMAT_R32_UINT | .VK_FORMAT_R8G8_UINT
  | .VK_FORMAT_R16_UINT | .VK_FORMAT_R8_UINT => true
  | _ => false

/-- Spec-side predicate, written from the claim's wording: the DXGI `TYPELESS`
codes that belong to a block-compressed (`BC*`) family. -/
def isBlockCompressedTypeless (c : Nat) : Bool :=
  c == 70 || c == 73 || c == 76 || c == 79 || c == 82 || c == 94 || c == 97

/-- Spec-side description of how `DXGIToVkFormat` actually treats `TYPELESS`
codes: block-compressed typeless codes map to their `UNORM` variant except
BC6H (unsigned float); the depth-stencil and B8G8R8-family typeless codes
either have no Vulkan equivalent (`UNDEFINED`) or map to a normalized view
(`D24_UNORM_S8_UINT` for code 44, `B8G8R8A8_UNORM` for code 90); every other
typeless code maps to a pure `UINT` view. -/
def typelessMappingAmended (c : Nat) : Bool :=
  if c == 70 then dxgiToVkFormat c == .VK_FORMAT_BC1_RGBA_UNORM_BLOCK
  else if c == 73 then dxgiToVkFormat c == .VK_FORMAT_BC2_UNORM_BLOCK
  else if c == 76 then dxgiToVkFormat c == .VK_FORMAT_BC3_UNORM_BLOCK
  else if c == 79 then dxgiToVkFormat c == .VK_FORMAT_BC4_UNORM_BLOCK
  else if c == 82 then dxgiToVkFormat c == .VK_FORMAT_BC5_UNORM_BLOCK
  else if c == 97 then dxgiToVkFormat c == .VK_FORMAT_BC7_UNORM_BLOCK
  else if c == 94 then dxgiToVkFormat c == .VK_FORMAT_BC6H_UFLOAT_BLOCK
  else if c == 19 || c == 21 || c == 46 || c == 47 || c == 92 then
    dxgiToVkFormat c == .VK_FORMAT_UNDEFINED
  else if c == 44 then dxgiToVkFormat c == .VK_FORMAT_D24_UNORM_S8_UINT
  else if c == 90 then dxgiToVkFormat c == .VK_FORMAT_B8G8R8A8_UNORM
  else isUintView (dxgiToVkFormat c)

/-- A legacy `DDS_PIXELFORMAT` with the FOURCC flag and code `"DXT1"`. -/
def dxt1Pf : DDS_PIXELFORMAT :=
  { size := 32, flags := 0x4, fourCC := makeFourCC 0x44 0x58 0x54 0x31,
    RGBBitCount := 0, RBitMask := 0, GBitMask := 0, BBitMask := 0, ABitMask := 0 }

/-- A `DDS_HEADER_DXT10` that is never consulted (its fields are only read on
the DX10 path, which the legacy examples below do not take). -/
def dummyExt : DDS_HEADER_DXT10 :=
  { dxgiFormat := 0, resourceDimension := 0, miscFlag := 0, arraySize := 0,
    miscFlags2 := 0 }

/-- A 4x4x4 volume (`DDS_HEADER_FLAGS_VOLUME`) DXT1 header whose `caps2` has
the cubemap bit but none of the six face bits. -/
def volHeader : DDS_HEADER :=
  { size := 124, flags := 0x800000, height := 4, width := 4,
    pitchOrLinearSize := 0, depth := 4, mipMapCount := 1, ddspf := dxt1Pf,
    caps := 0, caps2 := 0x200, caps3 := 0, caps4 := 0 }

/-- A legacy 2D DXT1 header whose `caps2` has the cubemap bit but none of the
six face bits. -/
def cubeMissingFacesHeader : DDS_HEADER :=
  { size := 124, flags := 0, height := 4, width := 4, pitchOrLinearSize := 0,
    depth := 0, mipMapCount := 1, ddspf := dxt1Pf, caps := 0, caps2 := 0x200,
    caps3 := 0, caps4 := 0 }

/-- An 8x8, 2-mip legacy DXT1 cubemap header (cubemap bit plus all six face
bits: `caps2 = DDS_CUBEMAP_ALLFACES`). -/
def cubeHeader : DDS_HEADER :=
  { size := 124, flags := 0, height := 8, width := 8, pitchOrLinearSize := 0,
    depth := 0, mipMapCount := 2, ddspf := dxt1Pf, caps := 0, caps2 := 0xFE00,
    caps3 := 0, caps4 := 0 }

/-- Device limits whose cubemap dimension cap (8) exceeds the 2D dimension
cap (2): `cubeHeader` passes validation against the cube cap, but the
fallback retry cap is the 2D cap. -/
def cubeLimits : VkPhysicalDeviceLimits :=
  { maxImageArrayLayers := 6, maxImageDimension1D := 4096,
    maxImageDimension2D := 2, maxImageDimension3D := 256,
    maxImageDimensionCube := 8 }

/-- A non-trivial descriptor standing for caller-supplied content of the
output vector before a load call. -/
def staleSubres : LoadedSubresourceData :=
  { pData := 7, dataByteSize := 7, aspectMask := .VK_IMAGE_ASPECT_COLOR_BIT,
    arrayLayer := 7, mipLevel := 7, width := 7, height := 7, depth := 7 }

/-- A minimal valid 128-byte DDS buffer: magic, `size = 124`,
`ddspf.size = 32`, everything else zero; no DX10 header, no payload. -/
def plainBuf : List Nat :=
  [0x44, 0x44, 0x53, 0x20] ++ [124, 0, 0, 0] ++ List.replicate 68 0 ++
    [32, 0, 0, 0] ++ List.replicate 48 0

/-- A 128-byte DDS buffer describing a 4x4, 1-mip legacy DXT1 texture with no
payload bytes after the header (so subresource enumeration runs out of
data). Offsets: height at 12, width at 16, `ddspf` at 76. -/
def dxt1Buf : List Nat :=
  [0x44, 0x44, 0x53, 0x20] ++ [124, 0, 0, 0] ++ [0, 0, 0, 0] ++ [4, 0, 0, 0] ++
    [4, 0, 0, 0] ++ List.replicate 56 0 ++ [32, 0, 0, 0] ++ [4, 0, 0, 0] ++
    [0x44, 0x58, 0x54, 0x31] ++ List.replicate 40 0

/-- The parameters `validateDDSHeader` resolves for `dxt1Buf`. -/
def dxt1BufParams : ResolvedParams :=
  { width := 4, height := 4, depth := 1, mipCount := 1, arraySize := 1,
    imgType := .VK_IMAGE_TYPE_2D, format := .VK_FORMAT_BC1_RGBA_UNORM_BLOCK,
    imageCreateFlags := 0, numberOfPlanes := 1 }

/-- The mip-0 descriptor of a 4x4 single-slice BC1 walk. -/
def mip0Desc : LoadedSubresourceData :=
  { pData := 0, dataByteSize := 8, aspectMask := .VK_IMAGE_ASPECT_COLOR_BIT,
    arrayLayer := 0, mipLevel := 0, width := 4, height := 4, depth := 1 }

/-- The mip-1 descriptor of a 4x4 single-slice BC1 walk. -/
def mip1Desc : LoadedSubresourceData :=
  { pData := 8, dataByteSize := 8, aspectMask := .VK_IMAGE_ASPECT_COLOR_BIT,
    arrayLayer := 0, mipLevel := 1, width := 2, height := 2, depth := 1 }

/-- Decidable equality for `Except` results, so concrete runs of the embedded
functions can be checked by `decide`. -/
instance {ε α : Type} [DecidableEq ε] [DecidableEq α] : DecidableEq (Except ε α) :=
  fun a b =>
    match a, b with
    | .ok a, .ok b =>
      if h : a = b then .isTrue (by rw [h]) else .isFalse (by simp [h])
    | .error a, .error b =>
      if h : a = b then .isTrue (by rw [h]) else .isFalse (by simp [h])
    | .ok _, .error _ => .isFalse (by simp)
    | .error _, .ok _ => .isFalse (by simp)

theorem nextDim_eq_max (x : Nat) : nextDim x = max 1 (x / 2) := by
  simp only [nextDim, Nat.shiftRight_one]
  split <;> omega

theorem max_one_ne_zero (x : Nat) : max 1 x ≠ 0 :=
  Nat.pos_iff_ne_zero.mp (lt_of_lt_of_le one_pos (le_max_left _ _))

theorem blockClassPositive_all (fmt : VkFormat) : blockClassPositive fmt = true := by
  cases fmt <;> rfl

theorem finalizeOutcome_res (r : DDS_LOADER_RESULT) (s : List LoadedSubresourceData)
    (c : Nat) (cap : Option Nat) : (finalizeOutcome r s c cap).res = r := rfl

theorem finalizeOutcome_fail (r : DDS_LOADER_RESULT) (s : List LoadedSubresourceData)
    (c : Nat) (cap : Option Nat) (h : r ≠ .DDS_LOADER_SUCCESS) :
    (finalizeOutcome r s c cap).subresources = [] := by
  simp [finalizeOutcome, h]

/-- C7: a 4x4, 1-mip legacy DXT1 pixel format maps to
`VK_FORMAT_BC1_RGBA_UNORM_BLOCK`; `GetSurfaceInfo` at 4x4 yields row stride 8,
one row and 8 bytes total; and `FillInitData` over the 8-byte payload yields
exactly one subresource descriptor. -/
theorem dxt1_scenario_ok :
    getVkFormat dxt1Pf = .VK_FORMAT_BC1_RGBA_UNORM_BLOCK ∧
    getSurfaceInfo 4 4 (getVkFormat dxt1Pf) .VK_IMAGE_ASPECT_COLOR_BIT =
      .ok { numBytes := 8, rowBytes := 8, numRows := 1 } ∧
    (fillInitData false 4 4 1 1 1 1 (getVkFormat dxt1Pf) 0 8 []).res =
      .DDS_LOADER_SUCCESS ∧
    (fillInitData false 4 4 1 1 1 1 (getVkFormat dxt1Pf) 0 8 []).initData.length = 1 := by
  decide

/-- C2 counterexample: for the block-compressed format
`VK_FORMAT_BC1_RGBA_UNORM_BLOCK`, `GetSurfaceInfo` at width 0 and height 0
returns total size 0, row stride 0 and row count 0 — not "at least one block":
the `max(1, ...)` clamps are guarded by `width > 0` / `height > 0`, so a zero
dimension yields zero blocks. -/
theorem getSurfaceInfo_zero_width_zero :
    surfaceClassify .VK_FORMAT_BC1_RGBA_UNORM_BLOCK = .block 4 4 8 ∧
    getSurfaceInfo 0 0 .VK_FORMAT_BC1_RGBA_UNORM_BLOCK .VK_IMAGE_ASPECT_COLOR_BIT =
      .ok { numBytes := 0, rowBytes := 0, numRows := 0 } := by
  decide

/-- C2 (amended): for every block-compressed format and every width and height
that are at least 1 (including sub-block sizes), `GetSurfaceInfo` computes at
least one block: the returned total byte size, row stride and row count are
all nonzero. -/
theorem getSurfaceInfo_block_pos (width height : Nat) (fmt : VkFormat)
    (aspect : VkImageAspect) (bw bh bpb : Nat)
    (hc : surfaceClassify fmt = .block bw bh bpb) (hw : 0 < width) (hh : 0 < height) :
    ∃ info, getSurfaceInfo width height fmt aspect = .ok info ∧
      info.numBytes ≠ 0 ∧ info.rowBytes ≠ 0 ∧ info.numRows ≠ 0 := by
  have hpos := blockClassPositive_all fmt
  rw [blockClassPositive, hc] at hpos
  simp only [Bool.and_eq_true, decide_eq_true_eq] at hpos
  obtain ⟨⟨hbw, hbh⟩, hbpb⟩ := hpos
  unfold getSurfaceInfo
  rw [hc]
  simp only [if_pos hw, if_pos hh]
  refine ⟨_, rfl, ?_, ?_, ?_⟩
  · exact Nat.mul_ne_zero (Nat.mul_ne_zero (max_one_ne_zero _) (by omega))
      (max_one_ne_zero _)
  · exact Nat.mul_ne_zero (max_one_ne_zero _) (by omega)
  · exact max_one_ne_zero _

theorem getSurfaceInfo_block_pos_witness :
    ∃ info, getSurfaceInfo 1 1 .VK_FORMAT_BC1_RGBA_UNORM_BLOCK
        .VK_IMAGE_ASPECT_COLOR_BIT = .ok info ∧
      info.numBytes ≠ 0 ∧ info.rowBytes ≠ 0 ∧ info.numRows ≠ 0 :=
  getSurfaceInfo_block_pos 1 1 .VK_FORMAT_BC1_RGBA_UNORM_BLOCK
    .VK_IMAGE_ASPECT_COLOR_BIT 4 4 8 (by decide) (by decide) (by decide)

/-- C3 counterexample: DXGI code 90 (`DXGI_FORMAT_B8G8R8A8_TYPELESS`) is a
typeless, non-block-compressed code, yet `DXGIToVkFormat` maps it to the
normalized view `VK_FORMAT_B8G8R8A8_UNORM`, not to a UINT view. -/
theorem dxgiToVkFormat_typeless_90_not_uint :
    isTypelessFormat 90 = true ∧ isBlockCompressedTypeless 90 = false ∧
    dxgiToVkFormat 90 = .VK_FORMAT_B8G8R8A8_UNORM ∧
    isUintView (dxgiToVkFormat 90) = false := by
  decide

/-- C3 (amended): every DXGI `TYPELESS` code recognised by `DXGIToVkFormat`
follows the mapping discipline of `typelessMappingAmended`: block-compressed
typeless codes map to their UNORM variant (BC6H to the unsigned-float
variant); codes 19, 21, 46, 47 and 92 map to `UNDEFINED`; code 44 maps to the
combined depth-stencil format `D24_UNORM_S8_UINT` and code 90 to
`B8G8R8A8_UNORM` (both normalized views, not UINT); all remaining typeless
codes map to a pure UINT view. -/
theorem dxgiToVkFormat_typeless_discipline (c : Nat)
    (h : isTypelessFormat c = true) : typelessMappingAmended c = true := by
  have hle : c ≤ 97 := by
    simp only [isTypelessFormat, Bool.or_eq_true, beq_iff_eq] at h
    omega
  interval_cases c <;> revert h <;> decide

theorem dxgiToVkFormat_typeless_discipline_witness :
    typelessMappingAmended 1 = true :=
  dxgiToVkFormat_typeless_discipline 1 (by decide)

/-- C4 counterexample: `VK_FORMAT_UNDEFINED` has a zero bits-per-pixel lookup
and is not classified as block-compressed, packed or multi-planar, yet
`GetSurfaceInfo` fails with `DDS_LOADER_INVALID_ARG`, not with
`DDS_LOADER_UNSUPPORTED_FORMAT`. -/
theorem getSurfaceInfo_zero_bpp_invalid_arg_at_undefined :
    bitsPerPixel .VK_FORMAT_UNDEFINED = 0 ∧
    surfaceClassify .VK_FORMAT_UNDEFINED = .ordinary ∧
    getSurfaceInfo 4 4 .VK_FORMAT_UNDEFINED .VK_IMAGE_ASPECT_COLOR_BIT =
      .error .DDS_LOADER_INVALID_ARG ∧
    getSurfaceInfo 4 4 .VK_FORMAT_UNDEFINED .VK_IMAGE_ASPECT_COLOR_BIT ≠
      .error .DDS_LOADER_UNSUPPORTED_FORMAT := by
  decide

/-- C4 (amended): for every width, height and aspect, and every format whose
bits-per-pixel lookup is zero and which the layout switch classifies as
ordinary (not block-compressed, packed or multi-planar), `GetSurfaceInfo`
fails with `DDS_LOADER_INVALID_ARG`. -/
theorem getSurfaceInfo_zero_bpp_invalid_arg (width height : Nat) (fmt : VkFormat)
    (aspect : VkImageAspect) (hb : bitsPerPixel fmt = 0)
    (hc : surfaceClassify fmt = .ordinary) :
    getSurfaceInfo width height fmt aspect = .error .DDS_LOADER_INVALID_ARG := by
  unfold getSurfaceInfo
  rw [hc]
  unfold surfaceInfoOrdinary
  simp [hb]

theorem getSurfaceInfo_zero_bpp_invalid_arg_witness :
    getSurfaceInfo 2 3 .VK_FORMAT_UNDEFINED .VK_IMAGE_ASPECT_COLOR_BIT =
      .error .DDS_LOADER_INVALID_ARG :=
  getSurfaceInfo_zero_bpp_invalid_arg 2 3 .VK_FORMAT_UNDEFINED
    .VK_IMAGE_ASPECT_COLOR_BIT (by decide) (by decide)

/-- C10: any in-memory input longer than `UINT32_MAX` bytes is rejected with
the generic `DDS_LOADER_FAIL`, whatever its contents — the size check runs
before the magic number or any header field is read, so the result cannot
depend on them. -/
theorem loadTextureDataFromMemory_rejects_huge (ddsData : List Nat)
    (h : 4294967295 < ddsData.length) :
    loadTextureDataFromMemory false ddsData = .error .DDS_LOADER_FAIL := by
  unfold loadTextureDataFromMemory
  simp [h]

theorem loadTextureDataFromMemory_rejects_huge_witness :
    loadTextureDataFromMemory false (List.replicate 4294967296 0) =
      .error .DDS_LOADER_FAIL :=
  loadTextureDataFromMemory_rejects_huge _
    (by rw [List.length_replicate]; omega)

/-- C8: whenever `LoadTextureDataFromMemory` succeeds, the bytes consumed by
the magic number, the fixed header and the optional extended header
(`offset`) plus the returned payload length (`bitSize`) account for the whole
input buffer. -/
theorem loadTextureDataFromMemory_accounts_all_bytes (outPtrNull : Bool)
    (ddsData : List Nat) (offset bitSize : Nat)
    (h : loadTextureDataFromMemory outPtrNull ddsData = .ok (offset, bitSize)) :
    offset + bitSize = ddsData.length := by
  simp only [loadTextureDataFromMemory] at h
  split_ifs at h with h1 h2 h3 h4 h5 h6 h7 <;>
    simp only [Except.ok.injEq, Prod.mk.injEq] at h <;> obtain ⟨ho, hb⟩ := h
  · have hlen : ¬ ddsData.length < 4 + 124 + 20 := fun hl => h6 ⟨h7, hl⟩
    omega
  · omega

set_option maxRecDepth 40000 in
theorem loadTextureDataFromMemory_accounts_all_bytes_witness :
    128 + 0 = plainBuf.length :=
  loadTextureDataFromMemory_accounts_all_bytes false plainBuf 128 0 (by decide)

theorem fillMipStore_mem (aspectPlane : VkImageAspect)
    (mipCount maxsize j i w h d srcOff dataSize : Nat) (st : FillState)
    (x : LoadedSubresourceData)
    (hx : x ∈ (fillMipStore aspectPlane mipCount maxsize j i w h d srcOff dataSize st).initData) :
    x ∈ st.initData ∨
      x = { pData := srcOff, dataByteSize := dataSize, aspectMask := aspectPlane,
            arrayLayer := j, mipLevel := i, width := w, height := h, depth := d } := by
  unfold fillMipStore at hx
  split_ifs at hx <;> simp_all [List.mem_append]

theorem fillMips_mem_extent (format : VkFormat) (aspect : VkImageAspect)
    (mipCount maxsize bitSize j width height depth : Nat) :
    ∀ (n i w h d srcOff : Nat) (st : FillState),
      w = mipDim width i → h = mipDim height i → d = mipDim depth i →
      (∀ x ∈ st.initData, mipExtentP width height depth x) →
      ∀ x ∈ (fillMips format aspect mipCount maxsize bitSize j
          n i w h d srcOff st).2.2.initData,
        mipExtentP width height depth x := by
  intro n
  induction n with
  | zero =>
    intro i w h d srcOff st _ _ _ hst x hx
    simp only [fillMips] at hx
    exact hst x hx
  | succ n ih =>
    intro i w h d srcOff st hw hh hd hst x hx
    simp only [fillMips] at hx
    cases hg : getSurfaceInfo w h format aspect with
    | error e =>
      simp only [hg] at hx
      exact hst x hx
    | ok surf =>
      simp only [hg] at hx
      have hst' : ∀ y ∈ (fillMipStore aspect mipCount maxsize j i w h d srcOff
          (surf.numBytes * d) st).initData, mipExtentP width height depth y := by
        intro y hy
        rcases fillMipStore_mem aspect mipCount maxsize j i w h d srcOff
            (surf.numBytes * d) st y hy with hmem | rfl
        · exact hst y hmem
        · simp only [mipExtentP]
          exact ⟨hw, hh, hd⟩
      by_cases hov : 4294967295 < surf.numBytes
      · simp only [if_pos hov] at hx
        exact hst x hx
      · simp only [if_neg hov] at hx
        by_cases heof : bitSize < srcOff + surf.numBytes * d
        · simp only [if_pos heof] at hx
          exact hst' x hx
        · simp only [if_neg heof] at hx
          exact ih (i + 1) (nextDim w) (nextDim h) (nextDim d) _ _
            (by rw [hw]; rfl) (by rw [hh]; rfl) (by rw [hd]; rfl) hst' x hx

theorem fillSlices_mem_extent (format : VkFormat) (aspect : VkImageAspect)
    (mipCount maxsize bitSize width height depth : Nat) :
    ∀ (jn j srcOff : Nat) (st : FillState),
      (∀ x ∈ st.initData, mipExtentP width height depth x) →
      ∀ x ∈ (fillSlices format aspect mipCount maxsize bitSize width height depth
          jn j srcOff st).2.2.initData,
        mipExtentP width height depth x := by
  intro jn
  induction jn with
  | zero =>
    intro j srcOff st hst x hx
    simp only [fillSlices] at hx
    exact hst x hx
  | succ jn ih =>
    intro j srcOff st hst x hx
    simp only [fillSlices] at hx
    rcases hm : fillMips format aspect mipCount maxsize bitSize j
        mipCount 0 width height depth srcOff st with ⟨o, off, st'⟩
    have hst' := fillMips_mem_extent format aspect mipCount maxsize bitSize j
      width height depth mipCount 0 width height depth srcOff st rfl rfl rfl hst
    rw [hm] at hst' hx
    cases o with
    | some e =>
      simp only at hx
      exact hst' x hx
    | none =>
      simp only at hx
      exact ih (j + 1) off st' hst' x hx

theorem fillPlanes_mem_extent (format : VkFormat)
    (mipCount maxsize bitSize width height depth arraySize numberOfPlanes : Nat) :
    ∀ (pn p : Nat) (st : FillState),
      (∀ x ∈ st.initData, mipExtentP width height depth x) →
      ∀ x ∈ (fillPlanes format mipCount maxsize bitSize width height depth arraySize
          numberOfPlanes pn p st).2.initData,
        mipExtentP width height depth x := by
  intro pn
  induction pn with
  | zero =>
    intro p st hst x hx
    simp only [fillPlanes] at hx
    exact hst x hx
  | succ pn ih =>
    intro p st hst x hx
    simp only [fillPlanes] at hx
    rcases hm : fillSlices format (fillAspectPlane numberOfPlanes format p) mipCount
        maxsize bitSize width height depth arraySize 0 0 st with ⟨o, off, st'⟩
    have hst' := fillSlices_mem_extent format (fillAspectPlane numberOfPlanes format p)
      mipCount maxsize bitSize width height depth arraySize 0 0 st hst
    rw [hm] at hst' hx
    cases o with
    | some e =>
      simp only at hx
      exact hst' x hx
    | none =>
      simp only at hx
      exact ih (p + 1) st' hst' x hx

theorem fillInitData_mem_extent
    (width height depth mipCount arraySize numberOfPlanes maxsize bitSize : Nat)
    (format : VkFormat) (s0 : List LoadedSubresourceData) :
    ∀ x ∈ (fillInitData false width height depth mipCount arraySize numberOfPlanes
        format maxsize bitSize s0).initData,
      mipExtentP width height depth x := by
  intro x hx
  simp only [fillInitData, Bool.false_eq_true, if_false] at hx
  rcases hp : fillPlanes format mipCount maxsize bitSize width height depth arraySize
      numberOfPlanes numberOfPlanes 0
      { twidth := 0, theight := 0, tdepth := 0, skipMip := 0, initData := [] }
    with ⟨o, st⟩
  have hst := fillPlanes_mem_extent format mipCount maxsize bitSize width height depth
    arraySize numberOfPlanes numberOfPlanes 0
    { twidth := 0, theight := 0, tdepth := 0, skipMip := 0, initData := [] }
    (by intro y hy; simp at hy)
  rw [hp] at hst hx
  cases o with
  | some e =>
    simp only at hx
    exact hst x hx
  | none =>
    simp only at hx
    exact hst x hx

/-- C5: mip extents halve with a floor of 1. For any two descriptors produced
by one `FillInitData` walk whose mip levels are consecutive, each extent
component at level `i + 1` is `max 1 (extent at level i / 2)`. -/
theorem fillInitData_mip_halving
    (width height depth mipCount arraySize numberOfPlanes maxsize bitSize : Nat)
    (format : VkFormat) (s0 : List LoadedSubresourceData)
    (d1 d2 : LoadedSubresourceData)
    (h1 : d1 ∈ (fillInitData false width height depth mipCount arraySize
        numberOfPlanes format maxsize bitSize s0).initData)
    (h2 : d2 ∈ (fillInitData false width height depth mipCount arraySize
        numberOfPlanes format maxsize bitSize s0).initData)
    (hm : d2.mipLevel = d1.mipLevel + 1) :
    d2.width = max 1 (d1.width / 2) ∧ d2.height = max 1 (d1.height / 2) ∧
      d2.depth = max 1 (d1.depth / 2) := by
  obtain ⟨hw1, hh1, hd1⟩ := fillInitData_mem_extent width height depth mipCount
    arraySize numberOfPlanes maxsize bitSize format s0 d1 h1
  obtain ⟨hw2, hh2, hd2⟩ := fillInitData_mem_extent width height depth mipCount
    arraySize numberOfPlanes maxsize bitSize format s0 d2 h2
  refine ⟨?_, ?_, ?_⟩
  · rw [hw2, hm, mipDim, ← hw1, nextDim_eq_max]
  · rw [hh2, hm, mipDim, ← hh1, nextDim_eq_max]
  · rw [hd2, hm, mipDim, ← hd1, nextDim_eq_max]

theorem fillInitData_mip_halving_witness :
    mip1Desc.width = max 1 (mip0Desc.width / 2) ∧
    mip1Desc.height = max 1 (mip0Desc.height / 2) ∧
    mip1Desc.depth = max 1 (mip0Desc.depth / 2) :=
  fillInitData_mip_halving 4 4 1 3 1 1 0 24 .VK_FORMAT_BC1_RGBA_UNORM_BLOCK []
    mip0Desc mip1Desc (by decide) (by decide) (by decide)

theorem enumAndCreate_fail (deviceNull : Bool) (p : ResolvedParams)
    (bitDataNull : Bool) (bitSize maxsize loadFlags : Nat)
    (createImageFn : Option (Nat → VkResult))
    (maxImageDimension2D maxImageDimension3D : Nat)
    (s0 : List LoadedSubresourceData)
    (h : (enumAndCreate deviceNull p bitDataNull bitSize maxsize loadFlags
        createImageFn maxImageDimension2D maxImageDimension3D s0).res ≠
      .DDS_LOADER_SUCCESS) :
    (enumAndCreate deviceNull p bitDataNull bitSize maxsize loadFlags createImageFn
        maxImageDimension2D maxImageDimension3D s0).subresources = [] := by
  simp only [enumAndCreate] at h ⊢
  split_ifs at h ⊢ <;>
    (rw [finalizeOutcome_res] at h; exact finalizeOutcome_fail _ _ _ _ h)

theorem createTextureFromDDS_fail (deviceNull : Bool) (header : DDS_HEADER)
    (d3d10ext : DDS_HEADER_DXT10) (bitDataNull : Bool) (bitSize maxsize : Nat)
    (deviceLimits : Option VkPhysicalDeviceLimits) (createFlags loadFlags : Nat)
    (createImageFn : Option (Nat → VkResult)) (s0 : List LoadedSubresourceData)
    (p : ResolvedParams)
    (hv : validateDDSHeader header d3d10ext createFlags
        (limitsOrDefault deviceLimits).maxImageArrayLayers
        (limitsOrDefault deviceLimits).maxImageDimension1D
        (limitsOrDefault deviceLimits).maxImageDimension2D
        (limitsOrDefault deviceLimits).maxImageDimension3D
        (limitsOrDefault deviceLimits).maxImageDimensionCube = .ok p)
    (h : (createTextureFromDDS deviceNull header d3d10ext bitDataNull bitSize maxsize
        deviceLimits createFlags loadFlags createImageFn s0).res ≠
      .DDS_LOADER_SUCCESS) :
    (createTextureFromDDS deviceNull header d3d10ext bitDataNull bitSize maxsize
        deviceLimits createFlags loadFlags createImageFn s0).subresources = [] := by
  simp only [createTextureFromDDS] at h ⊢
  rw [hv] at h ⊢
  exact enumAndCreate_fail _ _ _ _ _ _ _ _ _ _ h

/-- C1 counterexample: with a null device handle, `LoadDDSTextureFromMemoryEx`
returns `DDS_LOADER_INVALID_ARG` while the caller-supplied (non-empty)
subresource collection is returned untouched: the entry point resets the
texture / alpha-mode / create-info out-parameters, but not the collection,
before its argument checks. -/
theorem loadDDSTextureFromMemoryEx_null_device_keeps_subresources :
    loadDDSTextureFromMemoryEx true false false [] 0 none 0 0 none [staleSubres] =
      (.DDS_LOADER_INVALID_ARG, [staleSubres]) ∧
    ([staleSubres] : List LoadedSubresourceData) ≠ [] := by
  decide

/-- C1 (amended): for every load through `LoadDDSTextureFromMemoryEx` whose
header parse and header validation both succeed, a non-success result leaves
the output subresource collection empty, whatever the caller put in it;
failures before that point return the collection exactly as supplied. -/
theorem loadDDSTextureFromMemoryEx_fail_after_validation_clears
    (ddsData : List Nat) (maxsize : Nat)
    (deviceLimits : Option VkPhysicalDeviceLimits) (createFlags loadFlags : Nat)
    (createImageFn : Option (Nat → VkResult)) (s0 : List LoadedSubresourceData)
    (offset bitSize : Nat) (p : ResolvedParams)
    (hp : loadTextureDataFromMemory false ddsData = .ok (offset, bitSize))
    (hv : validateDDSHeader (parseDDSHeader ddsData) (parseDDSHeaderDXT10 ddsData)
        createFlags (limitsOrDefault deviceLimits).maxImageArrayLayers
        (limitsOrDefault deviceLimits).maxImageDimension1D
        (limitsOrDefault deviceLimits).maxImageDimension2D
        (limitsOrDefault deviceLimits).maxImageDimension3D
        (limitsOrDefault deviceLimits).maxImageDimensionCube = .ok p)
    (hr : (loadDDSTextureFromMemoryEx false false false ddsData maxsize deviceLimits
        createFlags loadFlags createImageFn s0).1 ≠ .DDS_LOADER_SUCCESS) :
    (loadDDSTextureFromMemoryEx false false false ddsData maxsize deviceLimits
        createFlags loadFlags createImageFn s0).2 = [] := by
  simp only [loadDDSTextureFromMemoryEx, false_or, if_false] at hr ⊢
  rw [hp] at hr ⊢
  exact createTextureFromDDS_fail _ _ _ _ _ _ _ _ _ _ _ p hv hr

set_option maxRecDepth 40000 in
theorem loadDDSTextureFromMemoryEx_fail_after_validation_clears_witness :
    (loadDDSTextureFromMemoryEx false false false dxt1Buf 0 none 0 0
        (some fun _ => .VK_SUCCESS) [staleSubres]).2 = [] :=
  loadDDSTextureFromMemoryEx_fail_after_validation_clears dxt1Buf 0 none 0 0
    (some fun _ => .VK_SUCCESS) [staleSubres] 128 0 dxt1BufParams
    (by decide) (by decide) (by decide)

/-- C9 counterexample: `volHeader` is a legacy header whose `caps2` has the
cubemap bit set without all six face bits, yet because its volume flag is also
set the pipeline takes the 3D branch, never reaches the cubemap face check,
and succeeds — producing a single-layer descriptor rather than failing with
`DDS_LOADER_UNSUPPORTED_LAYOUT`. -/
theorem volume_flag_bypasses_cubemap_check :
    volHeader.caps2 &&& 0x200 ≠ 0 ∧ volHeader.caps2 &&& 0xFE00 ≠ 0xFE00 ∧
    (createTextureFromDDS false volHeader dummyExt false 32 0 none 0 0
        (some fun _ => .VK_SUCCESS) []).res = .DDS_LOADER_SUCCESS ∧
    (createTextureFromDDS false volHeader dummyExt false 32 0 none 0 0
        (some fun _ => .VK_SUCCESS) []).subresources.length = 1 := by
  decide

/-- C9 (amended): for every legacy (non-DX10) header whose pixel format
resolves to a defined Vulkan format and whose volume flag is clear, if `caps2`
has the cubemap bit but not all six face bits, validation fails with
`DDS_LOADER_UNSUPPORTED_LAYOUT` (so no image and no descriptors are ever
produced for it). -/
theorem legacy_cubemap_missing_faces_unsupported_layout (header : DDS_HEADER)
    (d3d10ext : DDS_HEADER_DXT10) (createFlags : Nat)
    (maxImageArrayLayers maxImageDimension1D maxImageDimension2D
     maxImageDimension3D maxImageDimensionCube : Nat)
    (hleg : ¬(header.ddspf.flags &&& 0x4 ≠ 0 ∧
        header.ddspf.fourCC = makeFourCC 0x44 0x58 0x31 0x30))
    (hfmt : getVkFormat header.ddspf ≠ .VK_FORMAT_UNDEFINED)
    (hvol : header.flags &&& 0x800000 = 0)
    (hcube : header.caps2 &&& 0x200 ≠ 0)
    (hfaces : header.caps2 &&& 0xFE00 ≠ 0xFE00) :
    validateDDSHeader header d3d10ext createFlags maxImageArrayLayers
      maxImageDimension1D maxImageDimension2D maxImageDimension3D
      maxImageDimensionCube = .error .DDS_LOADER_UNSUPPORTED_LAYOUT := by
  simp only [validateDDSHeader]
  rw [if_neg hleg, if_neg hfmt,
    if_neg (show ¬ header.flags &&& 0x800000 ≠ 0 by simp [hvol]),
    if_pos hcube, if_pos hfaces]

theorem legacy_cubemap_missing_faces_unsupported_layout_witness :
    validateDDSHeader cubeMissingFacesHeader dummyExt 0 256 4096 4096 256 4096 =
      .error .DDS_LOADER_UNSUPPORTED_LAYOUT :=
  legacy_cubemap_missing_faces_unsupported_layout cubeMissingFacesHeader dummyExt
    0 256 4096 4096 256 4096 (by decide) (by decide) (by decide) (by decide)
    (by decide)

/-- C6 counterexample: a legacy 8x8 two-mip cubemap validated against device
limits whose cube cap (8) exceeds the 2D cap (2). The first (uncapped)
enumeration succeeds and the first creation attempt fails, so the retry
condition of the claim holds; the retry re-runs enumeration with the 2D cap 2,
that capped run keeps no mips and fails, and creation is never attempted a
second time: `createCalls = 1`, not 2. -/
theorem retry_without_second_creation_attempt :
    (fillInitData false 8 8 1 2 6 1 .VK_FORMAT_BC1_RGBA_UNORM_BLOCK 0 240 []).res =
      .DDS_LOADER_SUCCESS ∧
    cubeHeader.mipMapCount = 2 ∧
    (createTextureFromDDS false cubeHeader dummyExt false 240 0 (some cubeLimits) 0 0
        (some fun _ => .VK_ERROR_OUT_OF_HOST_MEMORY) []).retryCap = some 2 ∧
    (createTextureFromDDS false cubeHeader dummyExt false 240 0 (some cubeLimits) 0 0
        (some fun _ => .VK_ERROR_OUT_OF_HOST_MEMORY) []).createCalls = 1 ∧
    (createTextureFromDDS false cubeHeader dummyExt false 240 0 (some cubeLimits) 0 0
        (some fun _ => .VK_ERROR_OUT_OF_HOST_MEMORY) []).res = .DDS_LOADER_FAIL := by
  decide

/-- C6 (amended): the enumeration-and-creation stage performs at most one
automatic fallback retry, exactly when the first enumeration succeeded, the
first creation attempt failed, the request was uncapped (`maxsize = 0`) and
the mip count exceeds 1; the retry cap is the device's 3D dimension limit for
3D images and the 2D dimension limit otherwise; creation is attempted a second
time exactly when the capped re-enumeration succeeds (so two attempts in
total), and never otherwise (one attempt, or zero when enumeration failed). -/
theorem enumAndCreate_retry_discipline (deviceNull : Bool) (p : ResolvedParams)
    (bitDataNull : Bool) (bitSize maxsize loadFlags : Nat)
    (createImageFn : Option (Nat → VkResult))
    (maxImageDimension2D maxImageDimension3D : Nat)
    (s0 : List LoadedSubresourceData) :
    (enumAndCreate deviceNull p bitDataNull bitSize maxsize loadFlags createImageFn
        maxImageDimension2D maxImageDimension3D s0).retryCap =
      (if (fillInitData bitDataNull p.width p.height p.depth p.mipCount p.arraySize
            p.numberOfPlanes p.format maxsize bitSize s0).res = .DDS_LOADER_SUCCESS ∧
          createTextureResource deviceNull p.imgType
            (fillInitData bitDataNull p.width p.height p.depth p.mipCount p.arraySize
              p.numberOfPlanes p.format maxsize bitSize s0).twidth
            (fillInitData bitDataNull p.width p.height p.depth p.mipCount p.arraySize
              p.numberOfPlanes p.format maxsize bitSize s0).theight
            (fillInitData bitDataNull p.width p.height p.depth p.mipCount p.arraySize
              p.numberOfPlanes p.format maxsize bitSize s0).tdepth
            ((if loadFlags &&& 0x8 ≠ 0 then min 15 (countMips p.width p.height)
              else p.mipCount) -
              (fillInitData bitDataNull p.width p.height p.depth p.mipCount p.arraySize
                p.numberOfPlanes p.format maxsize bitSize s0).skipMip)
            p.arraySize p.format p.imageCreateFlags loadFlags createImageFn 0 ≠
            .DDS_LOADER_SUCCESS ∧
          maxsize = 0 ∧ 1 < p.mipCount
       then some (if p.imgType = .VK_IMAGE_TYPE_3D then maxImageDimension3D
                  else maxImageDimension2D)
       else none) ∧
    (enumAndCreate deviceNull p bitDataNull bitSize maxsize loadFlags createImageFn
        maxImageDimension2D maxImageDimension3D s0).createCalls =
      (if (fillInitData bitDataNull p.width p.height p.depth p.mipCount p.arraySize
            p.numberOfPlanes p.format maxsize bitSize s0).res ≠ .DDS_LOADER_SUCCESS
       then 0
       else if createTextureResource deviceNull p.imgType
            (fillInitData bitDataNull p.width p.height p.depth p.mipCount p.arraySize
              p.numberOfPlanes p.format maxsize bitSize s0).twidth
            (fillInitData bitDataNull p.width p.height p.depth p.mipCount p.arraySize
              p.numberOfPlanes p.format maxsize bitSize s0).theight
            (fillInitData bitDataNull p.width p.height p.depth p.mipCount p.arraySize
              p.numberOfPlanes p.format maxsize bitSize s0).tdepth
            ((if loadFlags &&& 0x8 ≠ 0 then min 15 (countMips p.width p.height)
              else p.mipCount) -
              (fillInitData bitDataNull p.width p.height p.depth p.mipCount p.arraySize
                p.numberOfPlanes p.format maxsize bitSize s0).skipMip)
            p.arraySize p.format p.imageCreateFlags loadFlags createImageFn 0 ≠
            .DDS_LOADER_SUCCESS ∧
          maxsize = 0 ∧ 1 < p.mipCount
       then
         (if (fillInitData bitDataNull p.width p.height p.depth p.mipCount p.arraySize
              p.numberOfPlanes p.format
              (if p.imgType = .VK_IMAGE_TYPE_3D then maxImageDimension3D
               else maxImageDimension2D) bitSize []).res = .DDS_LOADER_SUCCESS
          then 2 else 1)
       else 1) := by
  simp only [enumAndCreate]
  split_ifs <;> first | rfl | tauto
